import Mathlib

/-!
Verification of the model-architecture loader registry
(`mistralrs-core/src/pipeline/loaders.rs`).

The loader registry deserializes a raw JSON configuration document into a
canonical, architecture-specific configuration record, and constructs plain or
adapter-augmented (X-LoRA) models through externally supplied constructors.

Embedding conventions:
* A JSON document is modelled after text parsing, as a `Json` tree; a JSON
  number carries the exact rational value denoted by the decimal literal, in
  lowest terms.  The external text parser (`serde_json`) is modelled by the
  input `Except DeError Json` fed to each normalizer: malformed text is an
  already-failed parse, whose diagnostic the normalizer must propagate.
* A Rust `f32`/`f64` field holds the JSON literal rounded to a 24-bit
  (respectively 53-bit) binary significand, round-to-nearest ties-to-even
  (`toF32`/`toF64`); overflow and subnormal ranges are not modelled (no value
  in this development reaches them).
* `candle_nn::Activation` is an external enum deserialized from a JSON string;
  its variant set is irrelevant to the registry, which only stores it, so it
  is modelled by its string tag.
* Model constructors (`models::*::Model::new`, `xlora_models::*::new`) and the
  weight source (`VarBuilder`) are external collaborators: the loaders take
  them as arguments, and the theorems observe which arguments the registry
  passes to them and how it threads their results.
* Rust `usize` is modelled as `Nat`; serde rejects non-integral or negative
  JSON numbers for it, which the field readers mirror.
* The canonical config record types (`models::*::Config`) are reproduced from
  the exhaustive struct literals in `loaders.rs`, which fix their exact field
  sets and types.
-/

/-- An exact rational, as carried by a JSON numeric literal (the parser yields
it in lowest terms with a positive denominator). -/
structure JRat where
  num : ℤ
  den : ℕ
deriving DecidableEq, Repr

/-- A parsed JSON value. -/
inductive Json where
  | null : Json
  | bool : Bool → Json
  | num : JRat → Json
  | str : String → Json
  | obj : List (String × Json) → Json

/-- Deserialization diagnostics, mirroring the classes of `serde_json` errors
the registry can receive: malformed input text, a missing required field, and
a type mismatch at a named field. -/
inductive DeError where
  | syntaxErr : String → DeError
  | missingField : String → DeError
  | invalidType : String → DeError
deriving DecidableEq, Repr

/-- `candle_nn::Activation`: an external enum deserialized from a JSON string;
modelled by its string tag since the registry only stores it. -/
structure Activation where
  tag : String
deriving DecidableEq, Repr

/-- Fuel-driven base-two logarithm (`natLog2F n n` is `⌊log₂ n⌋` for `n ≥ 1`). -/
def natLog2F : ℕ → ℕ → ℕ
  | 0, _ => 0
  | fuel + 1, n => if n ≤ 1 then 0 else natLog2F fuel (n / 2) + 1

/-- Whether `2 ^ k ≤ num / den` (for `num, den ≥ 1`). -/
def pow2LE (k : ℤ) (num den : ℕ) : Bool :=
  match k with
  | .ofNat t => den * 2 ^ t ≤ num
  | .negSucc t => den ≤ num * 2 ^ (t + 1)

/-- `⌊log₂ (num / den)⌋` for `num, den ≥ 1`. -/
def floorLog2 (num den : ℕ) : ℤ :=
  let k : ℤ := (natLog2F num num : ℤ) - (natLog2F den den : ℤ)
  if pow2LE k num den then k else k - 1

/-- Remove common factors of two from a numerator/denominator pair (the
denominators produced by rounding are powers of two, so this yields lowest
terms). -/
def shrink2 : ℕ → ℤ → ℕ → JRat
  | 0, n, d => ⟨n, d⟩
  | fuel + 1, n, d =>
    if n.emod 2 = 0 ∧ d % 2 = 0 then shrink2 fuel (n.ediv 2) (d / 2) else ⟨n, d⟩

/-- Round a rational to the nearest binary floating-point value with `m`
significand bits (round-to-nearest, ties-to-even).  This is the value a Rust
`f32` (`m = 24`) or `f64` (`m = 53`) field holds after deserializing a JSON
numeric literal.  Overflow and subnormals are not modelled. -/
def roundBinary (m : ℕ) (q : JRat) : JRat :=
  if q.num = 0 then ⟨0, 1⟩
  else
    let an : ℕ := q.num.natAbs
    let ad : ℕ := q.den
    let e : ℤ := floorLog2 an ad - ((m : ℤ) - 1)
    let N : ℕ := match e with | .ofNat _ => an | .negSucc t => an * 2 ^ (t + 1)
    let D : ℕ := match e with | .ofNat t => ad * 2 ^ t | .negSucc _ => ad
    let r : ℕ := N / D
    let rem : ℕ := N % D
    let n : ℕ :=
      if D < 2 * rem then r + 1
      else if 2 * rem < D then r
      else if r % 2 = 0 then r else r + 1
    let sgn : ℤ := if q.num < 0 then -1 else 1
    match e with
    | .ofNat t => ⟨sgn * ((n * 2 ^ t : ℕ) : ℤ), 1⟩
    | .negSucc t => shrink2 (t + 1) (sgn * (n : ℤ)) (2 ^ (t + 1))

/-- The `f32` value of a JSON numeric literal. -/
def toF32 (q : JRat) : JRat := roundBinary 24 q

/-- The `f64` value of a JSON numeric literal. -/
def toF64 (q : JRat) : JRat := roundBinary 53 q

/-- Deserializing a struct requires the top-level JSON value to be an object. -/
def getObj (j : Json) : Except DeError (List (String × Json)) :=
  match j with
  | .obj o => .ok o
  | _ => .error (.invalidType "root")

/-- Required `usize` field: must be present and a non-negative integer. -/
def reqNat (v : Option Json) (name : String) : Except DeError Nat :=
  match v with
  | none => .error (.missingField name)
  | some (.num q) =>
    if q.den = 1 ∧ 0 ≤ q.num then .ok q.num.toNat else .error (.invalidType name)
  | some _ => .error (.invalidType name)

/-- Required `bool` field. -/
def reqBool (v : Option Json) (name : String) : Except DeError Bool :=
  match v with
  | none => .error (.missingField name)
  | some (.bool b) => .ok b
  | some _ => .error (.invalidType name)

/-- Required `f64` field. -/
def reqF64 (v : Option Json) (name : String) : Except DeError JRat :=
  match v with
  | none => .error (.missingField name)
  | some (.num q) => .ok (toF64 q)
  | some _ => .error (.invalidType name)

/-- Required `f32` field. -/
def reqF32 (v : Option Json) (name : String) : Except DeError JRat :=
  match v with
  | none => .error (.missingField name)
  | some (.num q) => .ok (toF32 q)
  | some _ => .error (.invalidType name)

/-- Required `Activation` field (a JSON string naming the variant). -/
def reqAct (v : Option Json) (name : String) : Except DeError Activation :=
  match v with
  | none => .error (.missingField name)
  | some (.str s) => .ok ⟨s⟩
  | some _ => .error (.invalidType name)

/-- `Option<usize>` field: serde maps an absent field or `null` to `None`. -/
def optNat (v : Option Json) (name : String) : Except DeError (Option Nat) :=
  match v with
  | none => .ok none
  | some .null => .ok none
  | some (.num q) =>
    if q.den = 1 ∧ 0 ≤ q.num then .ok (some q.num.toNat)
    else .error (.invalidType name)
  | some _ => .error (.invalidType name)

/-- `Option<Activation>` field: absent or `null` is `None`. -/
def optAct (v : Option Json) (name : String) : Except DeError (Option Activation) :=
  match v with
  | none => .ok none
  | some .null => .ok none
  | some (.str s) => .ok (some ⟨s⟩)
  | some _ => .error (.invalidType name)

/-- `usize` field with a `#[serde(default = ...)]` function: absent takes the
default; present must parse (`null` is not treated specially). -/
def defNat (v : Option Json) (name : String) (dflt : Nat) : Except DeError Nat :=
  match v with
  | none => .ok dflt
  | some (.num q) =>
    if q.den = 1 ∧ 0 ≤ q.num then .ok q.num.toNat else .error (.invalidType name)
  | some _ => .error (.invalidType name)

/-- `f32` field with a `#[serde(default = ...)]` function. -/
def defF32 (v : Option Json) (name : String) (dflt : JRat) : Except DeError JRat :=
  match v with
  | none => .ok dflt
  | some (.num q) => .ok (toF32 q)
  | some _ => .error (.invalidType name)

/-- `NormalLoaderType`: the architecture to load the normal model as. -/
inductive NormalLoaderType where
  | Mistral : NormalLoaderType
  | Gemma : NormalLoaderType
  | Mixtral : NormalLoaderType
  | Llama : NormalLoaderType
  | Phi2 : NormalLoaderType
deriving DecidableEq, Repr

/-- `impl FromStr for NormalLoaderType`: exact match against the five
lowercase identifiers; anything else produces
"Unknown architecture `{a}`". -/
def NormalLoaderType.from_str (s : String) : Except String NormalLoaderType :=
  if s = "mistral" then .ok .Mistral
  else if s = "gemma" then .ok .Gemma
  else if s = "mixtral" then .ok .Mixtral
  else if s = "llama" then .ok .Llama
  else if s = "phi2" then .ok .Phi2
  else .error ("Unknown architecture `" ++ s ++ "`")

/-- The textual identifier of each architecture tag. -/
def NormalLoaderType.ident : NormalLoaderType → String
  | .Mistral => "mistral"
  | .Gemma => "gemma"
  | .Mixtral => "mixtral"
  | .Llama => "llama"
  | .Phi2 => "phi2"

-- ======================== Mistral

/-- Raw schema `MistralBasicConfig` (`#[derive(Deserialize)]`). -/
structure MistralBasicConfig where
  vocab_size : Nat
  hidden_size : Nat
  intermediate_size : Nat
  num_hidden_layers : Nat
  num_attention_heads : Nat
  num_key_value_heads : Nat
  hidden_act : Activation
  max_position_embeddings : Nat
  rms_norm_eps : JRat
  rope_theta : JRat
  sliding_window : Option Nat
deriving DecidableEq, Repr

/-- Canonical `models::mistral::Config`, with the field set and types fixed by
the exhaustive struct literal in `MistralBasicConfig::deserialize`
(`rms_norm_eps`, `rope_theta` are `f64`). -/
structure MistralConfig where
  vocab_size : Nat
  hidden_size : Nat
  intermediate_size : Nat
  num_hidden_layers : Nat
  num_attention_heads : Nat
  num_key_value_heads : Nat
  hidden_act : Activation
  max_position_embeddings : Nat
  rms_norm_eps : JRat
  rope_theta : JRat
  sliding_window : Option Nat
  use_flash_attn : Bool
deriving DecidableEq, Repr

/-- serde's field-by-field deserialization of `MistralBasicConfig`. -/
def MistralBasicConfig.fromJson (j : Json) : Except DeError MistralBasicConfig :=
  Except.bind (getObj j) fun o =>
  Except.bind (reqNat (List.lookup "vocab_size" o) "vocab_size") fun vocab_size =>
  Except.bind (reqNat (List.lookup "hidden_size" o) "hidden_size") fun hidden_size =>
  Except.bind (reqNat (List.lookup "intermediate_size" o) "intermediate_size") fun intermediate_size =>
  Except.bind (reqNat (List.lookup "num_hidden_layers" o) "num_hidden_layers") fun num_hidden_layers =>
  Except.bind (reqNat (List.lookup "num_attention_heads" o) "num_attention_heads") fun num_attention_heads =>
  Except.bind (reqNat (List.lookup "num_key_value_heads" o) "num_key_value_heads") fun num_key_value_heads =>
  Except.bind (reqAct (List.lookup "hidden_act" o) "hidden_act") fun hidden_act =>
  Except.bind (reqNat (List.lookup "max_position_embeddings" o) "max_position_embeddings") fun max_position_embeddings =>
  Except.bind (reqF64 (List.lookup "rms_norm_eps" o) "rms_norm_eps") fun rms_norm_eps =>
  Except.bind (reqF64 (List.lookup "rope_theta" o) "rope_theta") fun rope_theta =>
  Except.bind (optNat (List.lookup "sliding_window" o) "sliding_window") fun sliding_window =>
  Except.ok ⟨vocab_size, hidden_size, intermediate_size, num_hidden_layers,
    num_attention_heads, num_key_value_heads, hidden_act, max_position_embeddings,
    rms_norm_eps, rope_theta, sliding_window⟩

/-- `MistralBasicConfig::deserialize`: parse the raw text, then build the
canonical config, merging in the caller's flash-attention flag. -/
def MistralBasicConfig.deserialize (p : Except DeError Json) (use_flash_attn : Bool) :
    Except DeError MistralConfig :=
  Except.bind p fun j =>
  Except.bind (MistralBasicConfig.fromJson j) fun b =>
  Except.ok ⟨b.vocab_size, b.hidden_size, b.intermediate_size, b.num_hidden_layers,
    b.num_attention_heads, b.num_key_value_heads, b.hidden_act,
    b.max_position_embeddings, b.rms_norm_eps, b.rope_theta, b.sliding_window,
    use_flash_attn⟩

-- ======================== Gemma

/-- Raw schema `GemmaBasicConfig` (the code gemma configs include both
`hidden_act` and `hidden_activation`; `max_position_embeddings` has
`#[serde(default = "default_max_position_embeddings")]`, i.e. 4096). -/
structure GemmaBasicConfig where
  attention_bias : Bool
  head_dim : Nat
  hidden_act : Option Activation
  hidden_activation : Option Activation
  hidden_size : Nat
  intermediate_size : Nat
  num_attention_heads : Nat
  num_hidden_layers : Nat
  num_key_value_heads : Nat
  rms_norm_eps : JRat
  rope_theta : JRat
  vocab_size : Nat
  max_position_embeddings : Nat
deriving DecidableEq, Repr

/-- Canonical `models::gemma::Config`, per the exhaustive struct literal in
`GemmaBasicConfig::deserialize`: it has no flash-attention field, and the
loader's flag parameter is the unused `_use_flash_attn`. -/
structure GemmaConfig where
  vocab_size : Nat
  hidden_size : Nat
  intermediate_size : Nat
  num_hidden_layers : Nat
  num_attention_heads : Nat
  num_key_value_heads : Nat
  hidden_act : Option Activation
  hidden_activation : Option Activation
  max_position_embeddings : Nat
  rms_norm_eps : JRat
  rope_theta : JRat
  attention_bias : Bool
  head_dim : Nat
deriving DecidableEq, Repr

/-- serde's field-by-field deserialization of `GemmaBasicConfig`. -/
def GemmaBasicConfig.fromJson (j : Json) : Except DeError GemmaBasicConfig :=
  Except.bind (getObj j) fun o =>
  Except.bind (reqBool (List.lookup "attention_bias" o) "attention_bias") fun attention_bias =>
  Except.bind (reqNat (List.lookup "head_dim" o) "head_dim") fun head_dim =>
  Except.bind (optAct (List.lookup "hidden_act" o) "hidden_act") fun hidden_act =>
  Except.bind (optAct (List.lookup "hidden_activation" o) "hidden_activation") fun hidden_activation =>
  Except.bind (reqNat (List.lookup "hidden_size" o) "hidden_size") fun hidden_size =>
  Except.bind (reqNat (List.lookup "intermediate_size" o) "intermediate_size") fun intermediate_size =>
  Except.bind (reqNat (List.lookup "num_attention_heads" o) "num_attention_heads") fun num_attention_heads =>
  Except.bind (reqNat (List.lookup "num_hidden_layers" o) "num_hidden_layers") fun num_hidden_layers =>
  Except.bind (reqNat (List.lookup "num_key_value_heads" o) "num_key_value_heads") fun num_key_value_heads =>
  Except.bind (reqF64 (List.lookup "rms_norm_eps" o) "rms_norm_eps") fun rms_norm_eps =>
  Except.bind (reqF64 (List.lookup "rope_theta" o) "rope_theta") fun rope_theta =>
  Except.bind (reqNat (List.lookup "vocab_size" o) "vocab_size") fun vocab_size =>
  Except.bind (defNat (List.lookup "max_position_embeddings" o) "max_position_embeddings" 4096) fun max_position_embeddings =>
  Except.ok ⟨attention_bias, head_dim, hidden_act, hidden_activation, hidden_size,
    intermediate_size, num_attention_heads, num_hidden_layers, num_key_value_heads,
    rms_norm_eps, rope_theta, vocab_size, max_position_embeddings⟩

/-- `GemmaBasicConfig::deserialize`: the flash-attention parameter is bound as
`_use_flash_attn` and dropped; no flag is merged into the canonical config. -/
def GemmaBasicConfig.deserialize (p : Except DeError Json) (_use_flash_attn : Bool) :
    Except DeError GemmaConfig :=
  Except.bind p fun j =>
  Except.bind (GemmaBasicConfig.fromJson j) fun b =>
  Except.ok ⟨b.vocab_size, b.hidden_size, b.intermediate_size, b.num_hidden_layers,
    b.num_attention_heads, b.num_key_value_heads, b.hidden_act, b.hidden_activation,
    b.max_position_embeddings, b.rms_norm_eps, b.rope_theta, b.attention_bias,
    b.head_dim⟩

-- ======================== Llama

/-- Raw schema `LlamaBasicConfig` (`num_key_value_heads` is `Option<usize>`;
`rope_theta` is an `f32` with `#[serde(default = "default_rope")]`, i.e.
10000.0). -/
structure LlamaBasicConfig where
  hidden_size : Nat
  intermediate_size : Nat
  vocab_size : Nat
  num_hidden_layers : Nat
  num_attention_heads : Nat
  num_key_value_heads : Option Nat
  rms_norm_eps : JRat
  rope_theta : JRat
deriving DecidableEq, Repr

/-- Canonical `models::llama::Config`, per the exhaustive struct literal in
`LlamaBasicConfig::deserialize` (`rms_norm_eps` is `f64`, `rope_theta` is
`f32`). -/
structure LlamaConfig where
  hidden_size : Nat
  intermediate_size : Nat
  vocab_size : Nat
  num_hidden_layers : Nat
  num_attention_heads : Nat
  num_key_value_heads : Nat
  rms_norm_eps : JRat
  rope_theta : JRat
  use_flash_attn : Bool
deriving DecidableEq, Repr

/-- serde's field-by-field deserialization of `LlamaBasicConfig`. -/
def LlamaBasicConfig.fromJson (j : Json) : Except DeError LlamaBasicConfig :=
  Except.bind (getObj j) fun o =>
  Except.bind (reqNat (List.lookup "hidden_size" o) "hidden_size") fun hidden_size =>
  Except.bind (reqNat (List.lookup "intermediate_size" o) "intermediate_size") fun intermediate_size =>
  Except.bind (reqNat (List.lookup "vocab_size" o) "vocab_size") fun vocab_size =>
  Except.bind (reqNat (List.lookup "num_hidden_layers" o) "num_hidden_layers") fun num_hidden_layers =>
  Except.bind (reqNat (List.lookup "num_attention_heads" o) "num_attention_heads") fun num_attention_heads =>
  Except.bind (optNat (List.lookup "num_key_value_heads" o) "num_key_value_heads") fun num_key_value_heads =>
  Except.bind (reqF64 (List.lookup "rms_norm_eps" o) "rms_norm_eps") fun rms_norm_eps =>
  Except.bind (defF32 (List.lookup "rope_theta" o) "rope_theta" ⟨10000, 1⟩) fun rope_theta =>
  Except.ok ⟨hidden_size, intermediate_size, vocab_size, num_hidden_layers,
    num_attention_heads, num_key_value_heads, rms_norm_eps, rope_theta⟩

/-- `LlamaBasicConfig::deserialize`: an absent key/value head count defaults
to the attention head count (`unwrap_or`), and the flash-attention flag is
merged in. -/
def LlamaBasicConfig.deserialize (p : Except DeError Json) (use_flash_attn : Bool) :
    Except DeError LlamaConfig :=
  Except.bind p fun j =>
  Except.bind (LlamaBasicConfig.fromJson j) fun b =>
  Except.ok ⟨b.hidden_size, b.intermediate_size, b.vocab_size, b.num_hidden_layers,
    b.num_attention_heads, b.num_key_value_heads.getD b.num_attention_heads,
    b.rms_norm_eps, b.rope_theta, use_flash_attn⟩

-- ======================== Mixtral

/-- Raw schema `MixtralBasicConfig` (every field required, including
`sliding_window` and the mixture-of-experts routing parameters). -/
structure MixtralBasicConfig where
  vocab_size : Nat
  hidden_size : Nat
  intermediate_size : Nat
  num_hidden_layers : Nat
  num_attention_heads : Nat
  num_key_value_heads : Nat
  hidden_act : Activation
  max_position_embeddings : Nat
  rms_norm_eps : JRat
  rope_theta : JRat
  sliding_window : Nat
  num_experts_per_tok : Nat
  num_local_experts : Nat
deriving DecidableEq, Repr

/-- Canonical `models::mixtral::Config`, per the exhaustive struct literal in
`MixtralBasicConfig::deserialize` (`rms_norm_eps`, `rope_theta` are `f64`). -/
structure MixtralConfig where
  vocab_size : Nat
  hidden_size : Nat
  intermediate_size : Nat
  num_hidden_layers : Nat
  num_attention_heads : Nat
  num_key_value_heads : Nat
  hidden_act : Activation
  max_position_embeddings : Nat
  rms_norm_eps : JRat
  rope_theta : JRat
  sliding_window : Nat
  use_flash_attn : Bool
  num_experts_per_tok : Nat
  num_local_experts : Nat
deriving DecidableEq, Repr

/-- serde's field-by-field deserialization of `MixtralBasicConfig`. -/
def MixtralBasicConfig.fromJson (j : Json) : Except DeError MixtralBasicConfig :=
  Except.bind (getObj j) fun o =>
  Except.bind (reqNat (List.lookup "vocab_size" o) "vocab_size") fun vocab_size =>
  Except.bind (reqNat (List.lookup "hidden_size" o) "hidden_size") fun hidden_size =>
  Except.bind (reqNat (List.lookup "intermediate_size" o) "intermediate_size") fun intermediate_size =>
  Except.bind (reqNat (List.lookup "num_hidden_layers" o) "num_hidden_layers") fun num_hidden_layers =>
  Except.bind (reqNat (List.lookup "num_attention_heads" o) "num_attention_heads") fun num_attention_heads =>
  Except.bind (reqNat (List.lookup "num_key_value_heads" o) "num_key_value_heads") fun num_key_value_heads =>
  Except.bind (reqAct (List.lookup "hidden_act" o) "hidden_act") fun hidden_act =>
  Except.bind (reqNat (List.lookup "max_position_embeddings" o) "max_position_embeddings") fun max_position_embeddings =>
  Except.bind (reqF64 (List.lookup "rms_norm_eps" o) "rms_norm_eps") fun rms_norm_eps =>
  Except.bind (reqF64 (List.lookup "rope_theta" o) "rope_theta") fun rope_theta =>
  Except.bind (reqNat (List.lookup "sliding_window" o) "sliding_window") fun sliding_window =>
  Except.bind (reqNat (List.lookup "num_experts_per_tok" o) "num_experts_per_tok") fun num_experts_per_tok =>
  Except.bind (reqNat (List.lookup "num_local_experts" o) "num_local_experts") fun num_local_experts =>
  Except.ok ⟨vocab_size, hidden_size, intermediate_size, num_hidden_layers,
    num_attention_heads, num_key_value_heads, hidden_act, max_position_embeddings,
    rms_norm_eps, rope_theta, sliding_window, num_experts_per_tok, num_local_experts⟩

/-- `MixtralBasicConfig::deserialize`. -/
def MixtralBasicConfig.deserialize (p : Except DeError Json) (use_flash_attn : Bool) :
    Except DeError MixtralConfig :=
  Except.bind p fun j =>
  Except.bind (MixtralBasicConfig.fromJson j) fun b =>
  Except.ok ⟨b.vocab_size, b.hidden_size, b.intermediate_size, b.num_hidden_layers,
    b.num_attention_heads, b.num_key_value_heads, b.hidden_act,
    b.max_position_embeddings, b.rms_norm_eps, b.rope_theta, b.sliding_window,
    use_flash_attn, b.num_experts_per_tok, b.num_local_experts⟩

-- ======================== Phi2

/-- Raw schema `Phi2BasicConfig` (`num_key_value_heads` is `Option<usize>`;
`rope_theta` is a required `f32`; `layer_norm_eps` and `partial_rotary_factor`
are `f64`). -/
structure Phi2BasicConfig where
  vocab_size : Nat
  hidden_size : Nat
  intermediate_size : Nat
  num_hidden_layers : Nat
  num_attention_heads : Nat
  num_key_value_heads : Option Nat
  hidden_act : Activation
  max_position_embeddings : Nat
  layer_norm_eps : JRat
  tie_word_embeddings : Bool
  rope_theta : JRat
  partial_rotary_factor : JRat
  qk_layernorm : Bool
deriving DecidableEq, Repr

/-- Canonical `models::phi2::Config`, per the exhaustive struct literal in
`Phi2BasicConfig::deserialize`: `num_key_value_heads` stays an
`Option<usize>` (the raw option is moved across verbatim), and `rope_theta`
is `f32`. -/
structure Phi2Config where
  vocab_size : Nat
  hidden_size : Nat
  intermediate_size : Nat
  num_hidden_layers : Nat
  num_attention_heads : Nat
  num_key_value_heads : Option Nat
  hidden_act : Activation
  max_position_embeddings : Nat
  rope_theta : JRat
  layer_norm_eps : JRat
  tie_word_embeddings : Bool
  partial_rotary_factor : JRat
  qk_layernorm : Bool
  use_flash_attn : Bool
deriving DecidableEq, Repr

/-- serde's field-by-field deserialization of `Phi2BasicConfig`. -/
def Phi2BasicConfig.fromJson (j : Json) : Except DeError Phi2BasicConfig :=
  Except.bind (getObj j) fun o =>
  Except.bind (reqNat (List.lookup "vocab_size" o) "vocab_size") fun vocab_size =>
  Except.bind (reqNat (List.lookup "hidden_size" o) "hidden_size") fun hidden_size =>
  Except.bind (reqNat (List.lookup "intermediate_size" o) "intermediate_size") fun intermediate_size =>
  Except.bind (reqNat (List.lookup "num_hidden_layers" o) "num_hidden_layers") fun num_hidden_layers =>
  Except.bind (reqNat (List.lookup "num_attention_heads" o) "num_attention_heads") fun num_attention_heads =>
  Except.bind (optNat (List.lookup "num_key_value_heads" o) "num_key_value_heads") fun num_key_value_heads =>
  Except.bind (reqAct (List.lookup "hidden_act" o) "hidden_act") fun hidden_act =>
  Except.bind (reqNat (List.lookup "max_position_embeddings" o) "max_position_embeddings") fun max_position_embeddings =>
  Except.bind (reqF64 (List.lookup "layer_norm_eps" o) "layer_norm_eps") fun layer_norm_eps =>
  Except.bind (reqBool (List.lookup "tie_word_embeddings" o) "tie_word_embeddings") fun tie_word_embeddings =>
  Except.bind (reqF32 (List.lookup "rope_theta" o) "rope_theta") fun rope_theta =>
  Except.bind (reqF64 (List.lookup "partial_rotary_factor" o) "partial_rotary_factor") fun partial_rotary_factor =>
  Except.bind (reqBool (List.lookup "qk_layernorm" o) "qk_layernorm") fun qk_layernorm =>
  Except.ok ⟨vocab_size, hidden_size, intermediate_size, num_hidden_layers,
    num_attention_heads, num_key_value_heads, hidden_act, max_position_embeddings,
    layer_norm_eps, tie_word_embeddings, rope_theta, partial_rotary_factor,
    qk_layernorm⟩

/-- `Phi2BasicConfig::deserialize`: the optional key/value head count is moved
into the canonical config unchanged, and the flash-attention flag is merged
in. -/
def Phi2BasicConfig.deserialize (p : Except DeError Json) (use_flash_attn : Bool) :
    Except DeError Phi2Config :=
  Except.bind p fun j =>
  Except.bind (Phi2BasicConfig.fromJson j) fun b =>
  Except.ok ⟨b.vocab_size, b.hidden_size, b.intermediate_size, b.num_hidden_layers,
    b.num_attention_heads, b.num_key_value_heads, b.hidden_act,
    b.max_position_embeddings, b.rope_theta, b.layer_norm_eps,
    b.tie_word_embeddings, b.partial_rotary_factor, b.qk_layernorm,
    use_flash_attn⟩

-- ======================== Loaders (the `NormalModelLoader` impls)

/-- Lifting a model constructor's result into a load result: the `?` operator
wraps the external constructor's error unchanged and boxes a success. -/
def ctorResult {E M : Type} (r : Except E M) : Except (DeError ⊕ E) M :=
  match r with
  | .error e => .error (.inr e)
  | .ok m => .ok m

/-- `MistralLoader::is_gptx`. -/
def MistralLoader.is_gptx : Bool := true

/-- `MistralLoader::load`: normalize the config, then call the plain
constructor (an external collaborator, passed as `new`) with the canonical
config, the weight source and `is_gptx()`. -/
def MistralLoader.load {VB E M : Type} (new : MistralConfig → VB → Bool → Except E M)
    (config : Except DeError Json) (use_flash_attn : Bool) (vb : VB) :
    Except (DeError ⊕ E) M :=
  match MistralBasicConfig.deserialize config use_flash_attn with
  | .error e => .error (.inl e)
  | .ok cfg => ctorResult (new cfg vb MistralLoader.is_gptx)

/-- `MistralLoader::load_xlora`: identical normalization, then the
adapter-augmented constructor with the adapter descriptors forwarded
unexamined. -/
def MistralLoader.load_xlora {VB LC XC XO E M : Type}
    (new : MistralConfig → VB → List (String × LC) → Option XC → XO → Bool → Except E M)
    (config : Except DeError Json) (use_flash_attn : Bool) (vb : VB)
    (lora_config : List (String × LC)) (xlora_config : Option XC) (xlora_ordering : XO) :
    Except (DeError ⊕ E) M :=
  match MistralBasicConfig.deserialize config use_flash_attn with
  | .error e => .error (.inl e)
  | .ok cfg => ctorResult (new cfg vb lora_config xlora_config xlora_ordering MistralLoader.is_gptx)

/-- `GemmaLoader::is_gptx`. -/
def GemmaLoader.is_gptx : Bool := true

/-- `GemmaLoader::load`. -/
def GemmaLoader.load {VB E M : Type} (new : GemmaConfig → VB → Bool → Except E M)
    (config : Except DeError Json) (use_flash_attn : Bool) (vb : VB) :
    Except (DeError ⊕ E) M :=
  match GemmaBasicConfig.deserialize config use_flash_attn with
  | .error e => .error (.inl e)
  | .ok cfg => ctorResult (new cfg vb GemmaLoader.is_gptx)

/-- `GemmaLoader::load_xlora`. -/
def GemmaLoader.load_xlora {VB LC XC XO E M : Type}
    (new : GemmaConfig → VB → List (String × LC) → Option XC → XO → Bool → Except E M)
    (config : Except DeError Json) (use_flash_attn : Bool) (vb : VB)
    (lora_config : List (String × LC)) (xlora_config : Option XC) (xlora_ordering : XO) :
    Except (DeError ⊕ E) M :=
  match GemmaBasicConfig.deserialize config use_flash_attn with
  | .error e => .error (.inl e)
  | .ok cfg => ctorResult (new cfg vb lora_config xlora_config xlora_ordering GemmaLoader.is_gptx)

/-- `LlamaLoader::is_gptx`. -/
def LlamaLoader.is_gptx : Bool := true

/-- `LlamaLoader::load`. -/
def LlamaLoader.load {VB E M : Type} (new : LlamaConfig → VB → Bool → Except E M)
    (config : Except DeError Json) (use_flash_attn : Bool) (vb : VB) :
    Except (DeError ⊕ E) M :=
  match LlamaBasicConfig.deserialize config use_flash_attn with
  | .error e => .error (.inl e)
  | .ok cfg => ctorResult (new cfg vb LlamaLoader.is_gptx)

/-- `LlamaLoader::load_xlora`. -/
def LlamaLoader.load_xlora {VB LC XC XO E M : Type}
    (new : LlamaConfig → VB → List (String × LC) → Option XC → XO → Bool → Except E M)
    (config : Except DeError Json) (use_flash_attn : Bool) (vb : VB)
    (lora_config : List (String × LC)) (xlora_config : Option XC) (xlora_ordering : XO) :
    Except (DeError ⊕ E) M :=
  match LlamaBasicConfig.deserialize config use_flash_attn with
  | .error e => .error (.inl e)
  | .ok cfg => ctorResult (new cfg vb lora_config xlora_config xlora_ordering LlamaLoader.is_gptx)

/-- `MixtralLoader::is_gptx`. -/
def MixtralLoader.is_gptx : Bool := true

/-- `MixtralLoader::load`. -/
def MixtralLoader.load {VB E M : Type} (new : MixtralConfig → VB → Bool → Except E M)
    (config : Except DeError Json) (use_flash_attn : Bool) (vb : VB) :
    Except (DeError ⊕ E) M :=
  match MixtralBasicConfig.deserialize config use_flash_attn with
  | .error e => .error (.inl e)
  | .ok cfg => ctorResult (new cfg vb MixtralLoader.is_gptx)

/-- `MixtralLoader::load_xlora`. -/
def MixtralLoader.load_xlora {VB LC XC XO E M : Type}
    (new : MixtralConfig → VB → List (String × LC) → Option XC → XO → Bool → Except E M)
    (config : Except DeError Json) (use_flash_attn : Bool) (vb : VB)
    (lora_config : List (String × LC)) (xlora_config : Option XC) (xlora_ordering : XO) :
    Except (DeError ⊕ E) M :=
  match MixtralBasicConfig.deserialize config use_flash_attn with
  | .error e => .error (.inl e)
  | .ok cfg => ctorResult (new cfg vb lora_config xlora_config xlora_ordering MixtralLoader.is_gptx)

/-- `Phi2Loader::is_gptx`. -/
def Phi2Loader.is_gptx : Bool := true

/-- `Phi2Loader::load`. -/
def Phi2Loader.load {VB E M : Type} (new : Phi2Config → VB → Bool → Except E M)
    (config : Except DeError Json) (use_flash_attn : Bool) (vb : VB) :
    Except (DeError ⊕ E) M :=
  match Phi2BasicConfig.deserialize config use_flash_attn with
  | .error e => .error (.inl e)
  | .ok cfg => ctorResult (new cfg vb Phi2Loader.is_gptx)

/-- `Phi2Loader::load_xlora`. -/
def Phi2Loader.load_xlora {VB LC XC XO E M : Type}
    (new : Phi2Config → VB → List (String × LC) → Option XC → XO → Bool → Except E M)
    (config : Except DeError Json) (use_flash_attn : Bool) (vb : VB)
    (lora_config : List (String × LC)) (xlora_config : Option XC) (xlora_ordering : XO) :
    Except (DeError ⊕ E) M :=
  match Phi2BasicConfig.deserialize config use_flash_attn with
  | .error e => .error (.inl e)
  | .ok cfg => ctorResult (new cfg vb lora_config xlora_config xlora_ordering Phi2Loader.is_gptx)

-- ======================== Schema key sets (for unknown-field tolerance)

/-- The declared field names of `MistralBasicConfig`. -/
def mistralKeys : List String :=
  ["vocab_size", "hidden_size", "intermediate_size", "num_hidden_layers",
   "num_attention_heads", "num_key_value_heads", "hidden_act",
   "max_position_embeddings", "rms_norm_eps", "rope_theta", "sliding_window"]

/-- The declared field names of `GemmaBasicConfig`. -/
def gemmaKeys : List String :=
  ["attention_bias", "head_dim", "hidden_act", "hidden_activation", "hidden_size",
   "intermediate_size", "num_attention_heads", "num_hidden_layers",
   "num_key_value_heads", "rms_norm_eps", "rope_theta", "vocab_size",
   "max_position_embeddings"]

/-- The declared field names of `LlamaBasicConfig`. -/
def llamaKeys : List String :=
  ["hidden_size", "intermediate_size", "vocab_size", "num_hidden_layers",
   "num_attention_heads", "num_key_value_heads", "rms_norm_eps", "rope_theta"]

/-- The declared field names of `MixtralBasicConfig`. -/
def mixtralKeys : List String :=
  ["vocab_size", "hidden_size", "intermediate_size", "num_hidden_layers",
   "num_attention_heads", "num_key_value_heads", "hidden_act",
   "max_position_embeddings", "rms_norm_eps", "rope_theta", "sliding_window",
   "num_experts_per_tok", "num_local_experts"]

/-- The declared field names of `Phi2BasicConfig`. -/
def phi2Keys : List String :=
  ["vocab_size", "hidden_size", "intermediate_size", "num_hidden_layers",
   "num_attention_heads", "num_key_value_heads", "hidden_act",
   "max_position_embeddings", "layer_norm_eps", "tie_word_embeddings",
   "rope_theta", "partial_rotary_factor", "qk_layernorm"]

-- ======================== Concrete documents and their canonical configs

/-- The fields of a minimal valid Mistral document (exactly the required
fields). -/
def mistralMinFields : List (String × Json) :=
  [("vocab_size", .num ⟨32, 1⟩), ("hidden_size", .num ⟨8, 1⟩),
   ("intermediate_size", .num ⟨16, 1⟩), ("num_hidden_layers", .num ⟨2, 1⟩),
   ("num_attention_heads", .num ⟨4, 1⟩), ("num_key_value_heads", .num ⟨2, 1⟩),
   ("hidden_act", .str "silu"), ("max_position_embeddings", .num ⟨128, 1⟩),
   ("rms_norm_eps", .num ⟨1, 1024⟩), ("rope_theta", .num ⟨10000, 1⟩)]

/-- A minimal valid Mistral document. -/
def mistralMinDoc : Json := .obj mistralMinFields

/-- The canonical config of `mistralMinDoc` under a `true` flash flag. -/
def mistralMinCfg : MistralConfig :=
  ⟨32, 8, 16, 2, 4, 2, ⟨"silu"⟩, 128, ⟨1, 1024⟩, ⟨10000, 1⟩, none, true⟩

/-- `mistralMinDoc` with `vocab_size` removed: missing a required field. -/
def mistralNoVocabDoc : Json := .obj
  [("hidden_size", .num ⟨8, 1⟩),
   ("intermediate_size", .num ⟨16, 1⟩), ("num_hidden_layers", .num ⟨2, 1⟩),
   ("num_attention_heads", .num ⟨4, 1⟩), ("num_key_value_heads", .num ⟨2, 1⟩),
   ("hidden_act", .str "silu"), ("max_position_embeddings", .num ⟨128, 1⟩),
   ("rms_norm_eps", .num ⟨1, 1024⟩), ("rope_theta", .num ⟨10000, 1⟩)]

/-- A minimal valid Gemma document (omits the optional `hidden_act`,
`hidden_activation` and `max_position_embeddings`). -/
def gemmaMinFields : List (String × Json) :=
  [("attention_bias", .bool false), ("head_dim", .num ⟨16, 1⟩),
   ("hidden_size", .num ⟨8, 1⟩), ("intermediate_size", .num ⟨16, 1⟩),
   ("num_attention_heads", .num ⟨4, 1⟩), ("num_hidden_layers", .num ⟨2, 1⟩),
   ("num_key_value_heads", .num ⟨2, 1⟩), ("rms_norm_eps", .num ⟨1, 1024⟩),
   ("rope_theta", .num ⟨10000, 1⟩), ("vocab_size", .num ⟨32, 1⟩)]

/-- A minimal valid Gemma document. -/
def gemmaMinDoc : Json := .obj gemmaMinFields

/-- The canonical config of `gemmaMinDoc` (no flash-attention field exists). -/
def gemmaMinCfg : GemmaConfig :=
  ⟨32, 8, 16, 2, 4, 2, none, none, 4096, ⟨1, 1024⟩, ⟨10000, 1⟩, false, 16⟩

/-- A minimal valid Llama document (omits the optional `num_key_value_heads`
and `rope_theta`). -/
def llamaMinFields : List (String × Json) :=
  [("hidden_size", .num ⟨8, 1⟩), ("intermediate_size", .num ⟨16, 1⟩),
   ("vocab_size", .num ⟨32, 1⟩), ("num_hidden_layers", .num ⟨2, 1⟩),
   ("num_attention_heads", .num ⟨4, 1⟩), ("rms_norm_eps", .num ⟨1, 1024⟩)]

/-- A minimal valid Llama document. -/
def llamaMinDoc : Json := .obj llamaMinFields

/-- The canonical config of `llamaMinDoc` under a `false` flash flag: the
key/value head count defaults to the attention head count and `rope_theta`
to 10000.0. -/
def llamaMinCfg : LlamaConfig := ⟨8, 16, 32, 2, 4, 4, ⟨1, 1024⟩, ⟨10000, 1⟩, false⟩

/-- `llamaMinDoc` with `rope_theta = 16777217` (= 2^24 + 1): representable in
`f64` but not in `f32`. -/
def llamaPrecFields : List (String × Json) :=
  [("hidden_size", .num ⟨8, 1⟩), ("intermediate_size", .num ⟨16, 1⟩),
   ("vocab_size", .num ⟨32, 1⟩), ("num_hidden_layers", .num ⟨2, 1⟩),
   ("num_attention_heads", .num ⟨4, 1⟩), ("rms_norm_eps", .num ⟨1, 1024⟩),
   ("rope_theta", .num ⟨16777217, 1⟩)]

/-- `mistralMinFields` with `rope_theta = 16777217` (= 2^24 + 1). -/
def mistralPrecFields : List (String × Json) :=
  [("vocab_size", .num ⟨32, 1⟩), ("hidden_size", .num ⟨8, 1⟩),
   ("intermediate_size", .num ⟨16, 1⟩), ("num_hidden_layers", .num ⟨2, 1⟩),
   ("num_attention_heads", .num ⟨4, 1⟩), ("num_key_value_heads", .num ⟨2, 1⟩),
   ("hidden_act", .str "silu"), ("max_position_embeddings", .num ⟨128, 1⟩),
   ("rms_norm_eps", .num ⟨1, 1024⟩), ("rope_theta", .num ⟨16777217, 1⟩)]

/-- A minimal valid Mixtral document (every field is required). -/
def mixtralMinFields : List (String × Json) :=
  [("vocab_size", .num ⟨32, 1⟩), ("hidden_size", .num ⟨8, 1⟩),
   ("intermediate_size", .num ⟨16, 1⟩), ("num_hidden_layers", .num ⟨2, 1⟩),
   ("num_attention_heads", .num ⟨4, 1⟩), ("num_key_value_heads", .num ⟨2, 1⟩),
   ("hidden_act", .str "silu"), ("max_position_embeddings", .num ⟨128, 1⟩),
   ("rms_norm_eps", .num ⟨1, 1024⟩), ("rope_theta", .num ⟨10000, 1⟩),
   ("sliding_window", .num ⟨64, 1⟩), ("num_experts_per_tok", .num ⟨2, 1⟩),
   ("num_local_experts", .num ⟨8, 1⟩)]

/-- A minimal valid Mixtral document. -/
def mixtralMinDoc : Json := .obj mixtralMinFields

/-- The canonical config of `mixtralMinDoc` under a `true` flash flag. -/
def mixtralMinCfg : MixtralConfig :=
  ⟨32, 8, 16, 2, 4, 2, ⟨"silu"⟩, 128, ⟨1, 1024⟩, ⟨10000, 1⟩, 64, true, 2, 8⟩

/-- A minimal valid Phi2 document (omits the optional
`num_key_value_heads`). -/
def phi2MinFields : List (String × Json) :=
  [("vocab_size", .num ⟨32, 1⟩), ("hidden_size", .num ⟨8, 1⟩),
   ("intermediate_size", .num ⟨16, 1⟩), ("num_hidden_layers", .num ⟨2, 1⟩),
   ("num_attention_heads", .num ⟨4, 1⟩), ("hidden_act", .str "gelu_new"),
   ("max_position_embeddings", .num ⟨128, 1⟩), ("layer_norm_eps", .num ⟨1, 1024⟩),
   ("tie_word_embeddings", .bool false), ("rope_theta", .num ⟨10000, 1⟩),
   ("partial_rotary_factor", .num ⟨1, 2⟩), ("qk_layernorm", .bool false)]

/-- A minimal valid Phi2 document. -/
def phi2MinDoc : Json := .obj phi2MinFields

/-- The canonical config of `phi2MinDoc` under a `true` flash flag: the
key/value head count stays absent (`none`). -/
def phi2MinCfg : Phi2Config :=
  ⟨32, 8, 16, 2, 4, none, ⟨"gelu_new"⟩, 128, ⟨10000, 1⟩, ⟨1, 1024⟩, false,
   ⟨1, 2⟩, false, true⟩

/-- Decidable equality of load results (used to evaluate the normalizers on
concrete documents). -/
instance {ε α : Type} [DecidableEq ε] [DecidableEq α] : DecidableEq (Except ε α) := fun x y =>
  match x, y with
  | .error e, .error f =>
    if h : e = f then .isTrue (h ▸ rfl) else .isFalse (fun hh => h (Except.error.inj hh))
  | .ok a, .ok b =>
    if h : a = b then .isTrue (h ▸ rfl) else .isFalse (fun hh => h (Except.ok.inj hh))
  | .error _, .ok _ => .isFalse (fun hh => Except.noConfusion hh)
  | .ok _, .error _ => .isFalse (fun hh => Except.noConfusion hh)


-- ======================== Inversion lemmas for the normalizers

/-- Inverting a successful `Except.bind`. -/
theorem exceptBind_ok {α β : Type} {x : Except DeError α} {f : α → Except DeError β} {b : β}
    (h : Except.bind x f = .ok b) : ∃ a, x = .ok a ∧ f a = .ok b := by
  cases x with
  | error e => exact absurd h (by simp [Except.bind])
  | ok a => exact ⟨a, rfl, h⟩

/-- A successful Mistral normalization determines every raw field reading. -/
theorem mistral_fromJson_ok {j : Json} {b : MistralBasicConfig}
    (h : MistralBasicConfig.fromJson j = .ok b) :
    ∃ o, getObj j = .ok o ∧
      reqNat (List.lookup "vocab_size" o) "vocab_size" = .ok b.vocab_size ∧
      reqNat (List.lookup "hidden_size" o) "hidden_size" = .ok b.hidden_size ∧
      reqNat (List.lookup "intermediate_size" o) "intermediate_size" = .ok b.intermediate_size ∧
      reqNat (List.lookup "num_hidden_layers" o) "num_hidden_layers" = .ok b.num_hidden_layers ∧
      reqNat (List.lookup "num_attention_heads" o) "num_attention_heads" = .ok b.num_attention_heads ∧
      reqNat (List.lookup "num_key_value_heads" o) "num_key_value_heads" = .ok b.num_key_value_heads ∧
      reqAct (List.lookup "hidden_act" o) "hidden_act" = .ok b.hidden_act ∧
      reqNat (List.lookup "max_position_embeddings" o) "max_position_embeddings" = .ok b.max_position_embeddings ∧
      reqF64 (List.lookup "rms_norm_eps" o) "rms_norm_eps" = .ok b.rms_norm_eps ∧
      reqF64 (List.lookup "rope_theta" o) "rope_theta" = .ok b.rope_theta ∧
      optNat (List.lookup "sliding_window" o) "sliding_window" = .ok b.sliding_window := by
  unfold MistralBasicConfig.fromJson at h
  obtain ⟨o, ho, h⟩ := exceptBind_ok h
  obtain ⟨x1, h1, h⟩ := exceptBind_ok h
  obtain ⟨x2, h2, h⟩ := exceptBind_ok h
  obtain ⟨x3, h3, h⟩ := exceptBind_ok h
  obtain ⟨x4, h4, h⟩ := exceptBind_ok h
  obtain ⟨x5, h5, h⟩ := exceptBind_ok h
  obtain ⟨x6, h6, h⟩ := exceptBind_ok h
  obtain ⟨x7, h7, h⟩ := exceptBind_ok h
  obtain ⟨x8, h8, h⟩ := exceptBind_ok h
  obtain ⟨x9, h9, h⟩ := exceptBind_ok h
  obtain ⟨x10, h10, h⟩ := exceptBind_ok h
  obtain ⟨x11, h11, h⟩ := exceptBind_ok h
  cases Except.ok.inj h
  exact ⟨o, ho, h1, h2, h3, h4, h5, h6, h7, h8, h9, h10, h11⟩

/-- A successful Mistral `deserialize` comes from a parsed document and a raw
config, and builds the canonical record field by field, merging in the flag. -/
theorem mistral_deserialize_ok {p : Except DeError Json} {flag : Bool}
    {cfg : MistralConfig} (h : MistralBasicConfig.deserialize p flag = .ok cfg) :
    ∃ j b, p = .ok j ∧ MistralBasicConfig.fromJson j = .ok b ∧
      cfg = ⟨b.vocab_size, b.hidden_size, b.intermediate_size, b.num_hidden_layers,
        b.num_attention_heads, b.num_key_value_heads, b.hidden_act,
        b.max_position_embeddings, b.rms_norm_eps, b.rope_theta, b.sliding_window,
        flag⟩ := by
  unfold MistralBasicConfig.deserialize at h
  obtain ⟨j, hj, h⟩ := exceptBind_ok h
  obtain ⟨b, hb, h⟩ := exceptBind_ok h
  exact ⟨j, b, hj, hb, (Except.ok.inj h).symm⟩

/-- A successful Gemma normalization determines every raw field reading. -/
theorem gemma_fromJson_ok {j : Json} {b : GemmaBasicConfig}
    (h : GemmaBasicConfig.fromJson j = .ok b) :
    ∃ o, getObj j = .ok o ∧
      reqBool (List.lookup "attention_bias" o) "attention_bias" = .ok b.attention_bias ∧
      reqNat (List.lookup "head_dim" o) "head_dim" = .ok b.head_dim ∧
      optAct (List.lookup "hidden_act" o) "hidden_act" = .ok b.hidden_act ∧
      optAct (List.lookup "hidden_activation" o) "hidden_activation" = .ok b.hidden_activation ∧
      reqNat (List.lookup "hidden_size" o) "hidden_size" = .ok b.hidden_size ∧
      reqNat (List.lookup "intermediate_size" o) "intermediate_size" = .ok b.intermediate_size ∧
      reqNat (List.lookup "num_attention_heads" o) "num_attention_heads" = .ok b.num_attention_heads ∧
      reqNat (List.lookup "num_hidden_layers" o) "num_hidden_layers" = .ok b.num_hidden_layers ∧
      reqNat (List.lookup "num_key_value_heads" o) "num_key_value_heads" = .ok b.num_key_value_heads ∧
      reqF64 (List.lookup "rms_norm_eps" o) "rms_norm_eps" = .ok b.rms_norm_eps ∧
      reqF64 (List.lookup "rope_theta" o) "rope_theta" = .ok b.rope_theta ∧
      reqNat (List.lookup "vocab_size" o) "vocab_size" = .ok b.vocab_size ∧
      defNat (List.lookup "max_position_embeddings" o) "max_position_embeddings" 4096 = .ok b.max_position_embeddings := by
  unfold GemmaBasicConfig.fromJson at h
  obtain ⟨o, ho, h⟩ := exceptBind_ok h
  obtain ⟨x1, h1, h⟩ := exceptBind_ok h
  obtain ⟨x2, h2, h⟩ := exceptBind_ok h
  obtain ⟨x3, h3, h⟩ := exceptBind_ok h
  obtain ⟨x4, h4, h⟩ := exceptBind_ok h
  obtain ⟨x5, h5, h⟩ := exceptBind_ok h
  obtain ⟨x6, h6, h⟩ := exceptBind_ok h
  obtain ⟨x7, h7, h⟩ := exceptBind_ok h
  obtain ⟨x8, h8, h⟩ := exceptBind_ok h
  obtain ⟨x9, h9, h⟩ := exceptBind_ok h
  obtain ⟨x10, h10, h⟩ := exceptBind_ok h
  obtain ⟨x11, h11, h⟩ := exceptBind_ok h
  obtain ⟨x12, h12, h⟩ := exceptBind_ok h
  obtain ⟨x13, h13, h⟩ := exceptBind_ok h
  cases Except.ok.inj h
  exact ⟨o, ho, h1, h2, h3, h4, h5, h6, h7, h8, h9, h10, h11, h12, h13⟩

/-- A successful Gemma `deserialize` builds the canonical record field by
field; no flash-attention flag is stored (none exists in `GemmaConfig`). -/
theorem gemma_deserialize_ok {p : Except DeError Json} {flag : Bool}
    {cfg : GemmaConfig} (h : GemmaBasicConfig.deserialize p flag = .ok cfg) :
    ∃ j b, p = .ok j ∧ GemmaBasicConfig.fromJson j = .ok b ∧
      cfg = ⟨b.vocab_size, b.hidden_size, b.intermediate_size, b.num_hidden_layers,
        b.num_attention_heads, b.num_key_value_heads, b.hidden_act,
        b.hidden_activation, b.max_position_embeddings, b.rms_norm_eps,
        b.rope_theta, b.attention_bias, b.head_dim⟩ := by
  unfold GemmaBasicConfig.deserialize at h
  obtain ⟨j, hj, h⟩ := exceptBind_ok h
  obtain ⟨b, hb, h⟩ := exceptBind_ok h
  exact ⟨j, b, hj, hb, (Except.ok.inj h).symm⟩

/-- A successful Llama normalization determines every raw field reading. -/
theorem llama_fromJson_ok {j : Json} {b : LlamaBasicConfig}
    (h : LlamaBasicConfig.fromJson j = .ok b) :
    ∃ o, getObj j = .ok o ∧
      reqNat (List.lookup "hidden_size" o) "hidden_size" = .ok b.hidden_size ∧
      reqNat (List.lookup "intermediate_size" o) "intermediate_size" = .ok b.intermediate_size ∧
      reqNat (List.lookup "vocab_size" o) "vocab_size" = .ok b.vocab_size ∧
      reqNat (List.lookup "num_hidden_layers" o) "num_hidden_layers" = .ok b.num_hidden_layers ∧
      reqNat (List.lookup "num_attention_heads" o) "num_attention_heads" = .ok b.num_attention_heads ∧
      optNat (List.lookup "num_key_value_heads" o) "num_key_value_heads" = .ok b.num_key_value_heads ∧
      reqF64 (List.lookup "rms_norm_eps" o) "rms_norm_eps" = .ok b.rms_norm_eps ∧
      defF32 (List.lookup "rope_theta" o) "rope_theta" ⟨10000, 1⟩ = .ok b.rope_theta := by
  unfold LlamaBasicConfig.fromJson at h
  obtain ⟨o, ho, h⟩ := exceptBind_ok h
  obtain ⟨x1, h1, h⟩ := exceptBind_ok h
  obtain ⟨x2, h2, h⟩ := exceptBind_ok h
  obtain ⟨x3, h3, h⟩ := exceptBind_ok h
  obtain ⟨x4, h4, h⟩ := exceptBind_ok h
  obtain ⟨x5, h5, h⟩ := exceptBind_ok h
  obtain ⟨x6, h6, h⟩ := exceptBind_ok h
  obtain ⟨x7, h7, h⟩ := exceptBind_ok h
  obtain ⟨x8, h8, h⟩ := exceptBind_ok h
  cases Except.ok.inj h
  exact ⟨o, ho, h1, h2, h3, h4, h5, h6, h7, h8⟩

/-- A successful Llama `deserialize` builds the canonical record with the
key/value head count defaulted to the attention head count (`unwrap_or`). -/
theorem llama_deserialize_ok {p : Except DeError Json} {flag : Bool}
    {cfg : LlamaConfig} (h : LlamaBasicConfig.deserialize p flag = .ok cfg) :
    ∃ j b, p = .ok j ∧ LlamaBasicConfig.fromJson j = .ok b ∧
      cfg = ⟨b.hidden_size, b.intermediate_size, b.vocab_size, b.num_hidden_layers,
        b.num_attention_heads, b.num_key_value_heads.getD b.num_attention_heads,
        b.rms_norm_eps, b.rope_theta, flag⟩ := by
  unfold LlamaBasicConfig.deserialize at h
  obtain ⟨j, hj, h⟩ := exceptBind_ok h
  obtain ⟨b, hb, h⟩ := exceptBind_ok h
  exact ⟨j, b, hj, hb, (Except.ok.inj h).symm⟩

/-- A successful Mixtral normalization determines every raw field reading. -/
theorem mixtral_fromJson_ok {j : Json} {b : MixtralBasicConfig}
    (h : MixtralBasicConfig.fromJson j = .ok b) :
    ∃ o, getObj j = .ok o ∧
      reqNat (List.lookup "vocab_size" o) "vocab_size" = .ok b.vocab_size ∧
      reqNat (List.lookup "hidden_size" o) "hidden_size" = .ok b.hidden_size ∧
      reqNat (List.lookup "intermediate_size" o) "intermediate_size" = .ok b.intermediate_size ∧
      reqNat (List.lookup "num_hidden_layers" o) "num_hidden_layers" = .ok b.num_hidden_layers ∧
      reqNat (List.lookup "num_attention_heads" o) "num_attention_heads" = .ok b.num_attention_heads ∧
      reqNat (List.lookup "num_key_value_heads" o) "num_key_value_heads" = .ok b.num_key_value_heads ∧
      reqAct (List.lookup "hidden_act" o) "hidden_act" = .ok b.hidden_act ∧
      reqNat (List.lookup "max_position_embeddings" o) "max_position_embeddings" = .ok b.max_position_embeddings ∧
      reqF64 (List.lookup "rms_norm_eps" o) "rms_norm_eps" = .ok b.rms_norm_eps ∧
      reqF64 (List.lookup "rope_theta" o) "rope_theta" = .ok b.rope_theta ∧
      reqNat (List.lookup "sliding_window" o) "sliding_window" = .ok b.sliding_window ∧
      reqNat (List.lookup "num_experts_per_tok" o) "num_experts_per_tok" = .ok b.num_experts_per_tok ∧
      reqNat (List.lookup "num_local_experts" o) "num_local_experts" = .ok b.num_local_experts := by
  unfold MixtralBasicConfig.fromJson at h
  obtain ⟨o, ho, h⟩ := exceptBind_ok h
  obtain ⟨x1, h1, h⟩ := exceptBind_ok h
  obtain ⟨x2, h2, h⟩ := exceptBind_ok h
  obtain ⟨x3, h3, h⟩ := exceptBind_ok h
  obtain ⟨x4, h4, h⟩ := exceptBind_ok h
  obtain ⟨x5, h5, h⟩ := exceptBind_ok h
  obtain ⟨x6, h6, h⟩ := exceptBind_ok h
  obtain ⟨x7, h7, h⟩ := exceptBind_ok h
  obtain ⟨x8, h8, h⟩ := exceptBind_ok h
  obtain ⟨x9, h9, h⟩ := exceptBind_ok h
  obtain ⟨x10, h10, h⟩ := exceptBind_ok h
  obtain ⟨x11, h11, h⟩ := exceptBind_ok h
  obtain ⟨x12, h12, h⟩ := exceptBind_ok h
  obtain ⟨x13, h13, h⟩ := exceptBind_ok h
  cases Except.ok.inj h
  exact ⟨o, ho, h1, h2, h3, h4, h5, h6, h7, h8, h9, h10, h11, h12, h13⟩

/-- A successful Mixtral `deserialize` builds the canonical record field by
field, merging in the flag. -/
theorem mixtral_deserialize_ok {p : Except DeError Json} {flag : Bool}
    {cfg : MixtralConfig} (h : MixtralBasicConfig.deserialize p flag = .ok cfg) :
    ∃ j b, p = .ok j ∧ MixtralBasicConfig.fromJson j = .ok b ∧
      cfg = ⟨b.vocab_size, b.hidden_size, b.intermediate_size, b.num_hidden_layers,
        b.num_attention_heads, b.num_key_value_heads, b.hidden_act,
        b.max_position_embeddings, b.rms_norm_eps, b.rope_theta, b.sliding_window,
        flag, b.num_experts_per_tok, b.num_local_experts⟩ := by
  unfold MixtralBasicConfig.deserialize at h
  obtain ⟨j, hj, h⟩ := exceptBind_ok h
  obtain ⟨b, hb, h⟩ := exceptBind_ok h
  exact ⟨j, b, hj, hb, (Except.ok.inj h).symm⟩

/-- A successful Phi2 normalization determines every raw field reading. -/
theorem phi2_fromJson_ok {j : Json} {b : Phi2BasicConfig}
    (h : Phi2BasicConfig.fromJson j = .ok b) :
    ∃ o, getObj j = .ok o ∧
      reqNat (List.lookup "vocab_size" o) "vocab_size" = .ok b.vocab_size ∧
      reqNat (List.lookup "hidden_size" o) "hidden_size" = .ok b.hidden_size ∧
      reqNat (List.lookup "intermediate_size" o) "intermediate_size" = .ok b.intermediate_size ∧
      reqNat (List.lookup "num_hidden_layers" o) "num_hidden_layers" = .ok b.num_hidden_layers ∧
      reqNat (List.lookup "num_attention_heads" o) "num_attention_heads" = .ok b.num_attention_heads ∧
      optNat (List.lookup "num_key_value_heads" o) "num_key_value_heads" = .ok b.num_key_value_heads ∧
      reqAct (List.lookup "hidden_act" o) "hidden_act" = .ok b.hidden_act ∧
      reqNat (List.lookup "max_position_embeddings" o) "max_position_embeddings" = .ok b.max_position_embeddings ∧
      reqF64 (List.lookup "layer_norm_eps" o) "layer_norm_eps" = .ok b.layer_norm_eps ∧
      reqBool (List.lookup "tie_word_embeddings" o) "tie_word_embeddings" = .ok b.tie_word_embeddings ∧
      reqF32 (List.lookup "rope_theta" o) "rope_theta" = .ok b.rope_theta ∧
      reqF64 (List.lookup "partial_rotary_factor" o) "partial_rotary_factor" = .ok b.partial_rotary_factor ∧
      reqBool (List.lookup "qk_layernorm" o) "qk_layernorm" = .ok b.qk_layernorm := by
  unfold Phi2BasicConfig.fromJson at h
  obtain ⟨o, ho, h⟩ := exceptBind_ok h
  obtain ⟨x1, h1, h⟩ := exceptBind_ok h
  obtain ⟨x2, h2, h⟩ := exceptBind_ok h
  obtain ⟨x3, h3, h⟩ := exceptBind_ok h
  obtain ⟨x4, h4, h⟩ := exceptBind_ok h
  obtain ⟨x5, h5, h⟩ := exceptBind_ok h
  obtain ⟨x6, h6, h⟩ := exceptBind_ok h
  obtain ⟨x7, h7, h⟩ := exceptBind_ok h
  obtain ⟨x8, h8, h⟩ := exceptBind_ok h
  obtain ⟨x9, h9, h⟩ := exceptBind_ok h
  obtain ⟨x10, h10, h⟩ := exceptBind_ok h
  obtain ⟨x11, h11, h⟩ := exceptBind_ok h
  obtain ⟨x12, h12, h⟩ := exceptBind_ok h
  obtain ⟨x13, h13, h⟩ := exceptBind_ok h
  cases Except.ok.inj h
  exact ⟨o, ho, h1, h2, h3, h4, h5, h6, h7, h8, h9, h10, h11, h12, h13⟩

/-- A successful Phi2 `deserialize` builds the canonical record field by
field, moving the optional key/value head count across verbatim and merging
in the flag. -/
theorem phi2_deserialize_ok {p : Except DeError Json} {flag : Bool}
    {cfg : Phi2Config} (h : Phi2BasicConfig.deserialize p flag = .ok cfg) :
    ∃ j b, p = .ok j ∧ Phi2BasicConfig.fromJson j = .ok b ∧
      cfg = ⟨b.vocab_size, b.hidden_size, b.intermediate_size, b.num_hidden_layers,
        b.num_attention_heads, b.num_key_value_heads, b.hidden_act,
        b.max_position_embeddings, b.rope_theta, b.layer_norm_eps,
        b.tie_word_embeddings, b.partial_rotary_factor, b.qk_layernorm, flag⟩ := by
  unfold Phi2BasicConfig.deserialize at h
  obtain ⟨j, hj, h⟩ := exceptBind_ok h
  obtain ⟨b, hb, h⟩ := exceptBind_ok h
  exact ⟨j, b, hj, hb, (Except.ok.inj h).symm⟩

-- ======================== Claims

/-- C1 (counterexample): for Gemma the claim fails — normalizing the same
valid document with the flag `true` and with the flag `false` returns the
very same successful canonical config, so the caller's flash-attention
boolean is not stored into it (indeed `GemmaConfig` has no such field). -/
theorem C1_flash_flag_gemma_counterexample :
    GemmaBasicConfig.deserialize (.ok gemmaMinDoc) true
      = GemmaBasicConfig.deserialize (.ok gemmaMinDoc) false
    ∧ GemmaBasicConfig.deserialize (.ok gemmaMinDoc) true = .ok gemmaMinCfg :=
  ⟨by decide, by decide⟩

/-- C1 (amended): for Mistral, Mixtral, Llama and Phi2 the caller-provided
flash-attention boolean is stored unconditionally into the canonical config
(its `use_flash_attn` field equals the flag, for every parse result and both
flag values); for Gemma the normalizer ignores the flag (the parameter is the
unused `_use_flash_attn`) and its canonical config carries no
flash-attention field. -/
theorem C1_flash_flag_stored_except_gemma :
    (∀ p flag cfg, MistralBasicConfig.deserialize p flag = .ok cfg →
      cfg.use_flash_attn = flag) ∧
    (∀ p flag cfg, MixtralBasicConfig.deserialize p flag = .ok cfg →
      cfg.use_flash_attn = flag) ∧
    (∀ p flag cfg, LlamaBasicConfig.deserialize p flag = .ok cfg →
      cfg.use_flash_attn = flag) ∧
    (∀ p flag cfg, Phi2BasicConfig.deserialize p flag = .ok cfg →
      cfg.use_flash_attn = flag) ∧
    (∀ p fa fb, GemmaBasicConfig.deserialize p fa = GemmaBasicConfig.deserialize p fb) := by
  refine ⟨?_, ?_, ?_, ?_, ?_⟩
  · intro p flag cfg h
    obtain ⟨j, b, hj, hb, rfl⟩ := mistral_deserialize_ok h
    rfl
  · intro p flag cfg h
    obtain ⟨j, b, hj, hb, rfl⟩ := mixtral_deserialize_ok h
    rfl
  · intro p flag cfg h
    obtain ⟨j, b, hj, hb, rfl⟩ := llama_deserialize_ok h
    rfl
  · intro p flag cfg h
    obtain ⟨j, b, hj, hb, rfl⟩ := phi2_deserialize_ok h
    rfl
  · intro p fa fb
    rfl

/-- C1 (witness): the Mistral conjunct applied to the concrete minimal
document with the flag `true`. -/
theorem C1_flash_flag_witness :
    MistralBasicConfig.deserialize (.ok mistralMinDoc) true = .ok mistralMinCfg ∧
    mistralMinCfg.use_flash_attn = true :=
  ⟨by decide,
   C1_flash_flag_stored_except_gemma.1 (.ok mistralMinDoc) true mistralMinCfg (by decide)⟩

/-- C2 (counterexample): for Phi2 the claim fails — normalizing a valid
document that omits `num_key_value_heads` yields a canonical config whose
key/value head count is `none`, not the attention head count: the raw
`Option` is moved across verbatim. -/
theorem C2_phi2_kv_counterexample :
    Phi2BasicConfig.deserialize (.ok phi2MinDoc) true = .ok phi2MinCfg ∧
    phi2MinCfg.num_key_value_heads ≠ some phi2MinCfg.num_attention_heads :=
  ⟨by decide, by decide⟩

/-- C2 (amended): for Llama an absent `num_key_value_heads` defaults to
`num_attention_heads` in the canonical config and a present integral value is
used verbatim; for Phi2 the canonical config's key/value head count is itself
optional: absence is preserved as `none` (no defaulting happens during
normalization) and a present value is stored verbatim as `some`. -/
theorem C2_kv_head_defaulting :
    (∀ o flag cfg, List.lookup "num_key_value_heads" o = none →
      LlamaBasicConfig.deserialize (.ok (.obj o)) flag = .ok cfg →
      cfg.num_key_value_heads = cfg.num_attention_heads) ∧
    (∀ o flag cfg (n : ℕ), List.lookup "num_key_value_heads" o = some (.num ⟨(n : ℤ), 1⟩) →
      LlamaBasicConfig.deserialize (.ok (.obj o)) flag = .ok cfg →
      cfg.num_key_value_heads = n) ∧
    (∀ o flag cfg, List.lookup "num_key_value_heads" o = none →
      Phi2BasicConfig.deserialize (.ok (.obj o)) flag = .ok cfg →
      cfg.num_key_value_heads = none) ∧
    (∀ o flag cfg (n : ℕ), List.lookup "num_key_value_heads" o = some (.num ⟨(n : ℤ), 1⟩) →
      Phi2BasicConfig.deserialize (.ok (.obj o)) flag = .ok cfg →
      cfg.num_key_value_heads = some n) := by
  refine ⟨?_, ?_, ?_, ?_⟩
  · intro o flag cfg hnone h
    obtain ⟨j, b, hj, hb, rfl⟩ := llama_deserialize_ok h
    cases Except.ok.inj hj
    obtain ⟨o2, ho2, _, _, _, _, _, hkv, _, _⟩ := llama_fromJson_ok hb
    cases Except.ok.inj ho2
    rw [hnone] at hkv
    have hk : b.num_key_value_heads = none := (Except.ok.inj hkv).symm
    show b.num_key_value_heads.getD b.num_attention_heads = b.num_attention_heads
    rw [hk]
    rfl
  · intro o flag cfg n hsome h
    obtain ⟨j, b, hj, hb, rfl⟩ := llama_deserialize_ok h
    cases Except.ok.inj hj
    obtain ⟨o2, ho2, _, _, _, _, _, hkv, _, _⟩ := llama_fromJson_ok hb
    cases Except.ok.inj ho2
    rw [hsome] at hkv
    have hk : b.num_key_value_heads = some n := by
      simp [optNat, Int.toNat_natCast] at hkv
      exact hkv.symm
    show b.num_key_value_heads.getD b.num_attention_heads = n
    rw [hk]
    rfl
  · intro o flag cfg hnone h
    obtain ⟨j, b, hj, hb, rfl⟩ := phi2_deserialize_ok h
    cases Except.ok.inj hj
    obtain ⟨o2, ho2, _, _, _, _, _, hkv, _, _, _, _, _, _⟩ := phi2_fromJson_ok hb
    cases Except.ok.inj ho2
    rw [hnone] at hkv
    exact (Except.ok.inj hkv).symm
  · intro o flag cfg n hsome h
    obtain ⟨j, b, hj, hb, rfl⟩ := phi2_deserialize_ok h
    cases Except.ok.inj hj
    obtain ⟨o2, ho2, _, _, _, _, _, hkv, _, _, _, _, _, _⟩ := phi2_fromJson_ok hb
    cases Except.ok.inj ho2
    rw [hsome] at hkv
    have hk : b.num_key_value_heads = some n := by
      simp [optNat, Int.toNat_natCast] at hkv
      exact hkv.symm
    exact hk

/-- C2 (witness): the Llama defaulting conjunct applied to the concrete
minimal document (which omits `num_key_value_heads` and has
`num_attention_heads = 4`). -/
theorem C2_kv_head_witness :
    List.lookup "num_key_value_heads" llamaMinFields = none ∧
    LlamaBasicConfig.deserialize (.ok (.obj llamaMinFields)) false = .ok llamaMinCfg ∧
    llamaMinCfg.num_key_value_heads = llamaMinCfg.num_attention_heads :=
  ⟨by rfl, by decide,
   C2_kv_head_defaulting.1 llamaMinFields false llamaMinCfg (by rfl) (by decide)⟩

/-- C3 (confirmed): `from_str` succeeds exactly on the five lowercase
identifiers, case-sensitively and without trimming, returning the matching
tag; on every other string it fails with "Unknown architecture `…`", an error
that contains the offending string verbatim (as a substring, witnessed by the
surrounding pieces). -/
theorem C3_arch_resolution (s : String) :
    (∀ t, NormalLoaderType.from_str s = .ok t ↔ s = t.ident) ∧
    (∀ e, NormalLoaderType.from_str s = .error e →
      e = "Unknown architecture `" ++ s ++ "`" ∧ ∃ l r, e = l ++ s ++ r) ∧
    (s ∉ ["mistral", "gemma", "mixtral", "llama", "phi2"] →
      NormalLoaderType.from_str s = .error ("Unknown architecture `" ++ s ++ "`")) := by
  by_cases h1 : s = "mistral"
  · subst h1
    refine ⟨fun t => ?_, fun e he => ?_, fun hmem => ?_⟩
    · cases t <;> simp [NormalLoaderType.from_str, NormalLoaderType.ident]
    · simp [NormalLoaderType.from_str] at he
    · simp at hmem
  · by_cases h2 : s = "gemma"
    · subst h2
      refine ⟨fun t => ?_, fun e he => ?_, fun hmem => ?_⟩
      · cases t <;> simp [NormalLoaderType.from_str, NormalLoaderType.ident]
      · simp [NormalLoaderType.from_str] at he
      · simp at hmem
    · by_cases h3 : s = "mixtral"
      · subst h3
        refine ⟨fun t => ?_, fun e he => ?_, fun hmem => ?_⟩
        · cases t <;> simp [NormalLoaderType.from_str, NormalLoaderType.ident]
        · simp [NormalLoaderType.from_str] at he
        · simp at hmem
      · by_cases h4 : s = "llama"
        · subst h4
          refine ⟨fun t => ?_, fun e he => ?_, fun hmem => ?_⟩
          · cases t <;> simp [NormalLoaderType.from_str, NormalLoaderType.ident]
          · simp [NormalLoaderType.from_str] at he
          · simp at hmem
        · by_cases h5 : s = "phi2"
          · subst h5
            refine ⟨fun t => ?_, fun e he => ?_, fun hmem => ?_⟩
            · cases t <;> simp [NormalLoaderType.from_str, NormalLoaderType.ident]
            · simp [NormalLoaderType.from_str] at he
            · simp at hmem
          · refine ⟨fun t => ?_, fun e he => ?_, fun hmem => ?_⟩
            · cases t <;> simp [NormalLoaderType.from_str, NormalLoaderType.ident, h1, h2, h3, h4, h5]
            · simp [NormalLoaderType.from_str, h1, h2, h3, h4, h5] at he
              exact ⟨he.symm, "Unknown architecture `", "`", he.symm⟩
            · simp [NormalLoaderType.from_str, h1, h2, h3, h4, h5]

/-- C3 (witness): the selector string "gpt2" fails with an error message
containing "gpt2" verbatim. -/
theorem C3_arch_resolution_witness :
    NormalLoaderType.from_str "gpt2" = .error "Unknown architecture `gpt2`" ∧
    ∃ l r, ("Unknown architecture `gpt2`" : String) = l ++ "gpt2" ++ r := by
  have h := (C3_arch_resolution "gpt2").2.1 "Unknown architecture `gpt2`" (by decide)
  exact ⟨by decide, h.2⟩

/-- C4 (confirmed): a Gemma document omitting `max_position_embeddings` yields
a canonical config with `max_position_embeddings = 4096`, and a Llama
document omitting `rope_theta` yields a canonical config with
`rope_theta = 10000.0` (exactly representable, so the rational value is
10000). -/
theorem C4_fixed_defaults :
    (∀ o flag cfg, List.lookup "max_position_embeddings" o = none →
      GemmaBasicConfig.deserialize (.ok (.obj o)) flag = .ok cfg →
      cfg.max_position_embeddings = 4096) ∧
    (∀ o flag cfg, List.lookup "rope_theta" o = none →
      LlamaBasicConfig.deserialize (.ok (.obj o)) flag = .ok cfg →
      cfg.rope_theta = ⟨10000, 1⟩) := by
  constructor
  · intro o flag cfg hnone h
    obtain ⟨j, b, hj, hb, rfl⟩ := gemma_deserialize_ok h
    cases Except.ok.inj hj
    obtain ⟨o2, ho2, _, _, _, _, _, _, _, _, _, _, _, _, hmp⟩ := gemma_fromJson_ok hb
    cases Except.ok.inj ho2
    rw [hnone] at hmp
    exact (Except.ok.inj hmp).symm
  · intro o flag cfg hnone h
    obtain ⟨j, b, hj, hb, rfl⟩ := llama_deserialize_ok h
    cases Except.ok.inj hj
    obtain ⟨o2, ho2, _, _, _, _, _, _, _, hrt⟩ := llama_fromJson_ok hb
    cases Except.ok.inj ho2
    rw [hnone] at hrt
    exact (Except.ok.inj hrt).symm

/-- C4 (witness): both conjuncts applied to the concrete minimal documents. -/
theorem C4_fixed_defaults_witness :
    List.lookup "max_position_embeddings" gemmaMinFields = none ∧
    GemmaBasicConfig.deserialize (.ok (.obj gemmaMinFields)) false = .ok gemmaMinCfg ∧
    gemmaMinCfg.max_position_embeddings = 4096 ∧
    List.lookup "rope_theta" llamaMinFields = none ∧
    llamaMinCfg.rope_theta = ⟨10000, 1⟩ :=
  ⟨by rfl, by decide,
   C4_fixed_defaults.1 gemmaMinFields false gemmaMinCfg (by rfl) (by decide),
   by rfl,
   C4_fixed_defaults.2 llamaMinFields false llamaMinCfg (by rfl) (by decide)⟩

/-- C5 (confirmed): for every architecture, a failed parse (malformed text)
or a failed field deserialization makes the normalizer return exactly the
underlying diagnostic, and `load`/`load_xlora` return that diagnostic
unmodified (injected on the parse side of the error sum) without ever calling
the model constructor — no canonical config and no model is produced. -/
theorem C5_error_propagation :
    (∀ e flag, MistralBasicConfig.deserialize (.error e) flag = .error e) ∧
    (∀ p flag e, MistralBasicConfig.deserialize p flag = .error e →
      (∀ (VB E M : Type) (new : MistralConfig → VB → Bool → Except E M) (vb : VB),
        MistralLoader.load new p flag vb = .error (.inl e)) ∧
      (∀ (VB LC XC XO E M : Type)
        (new : MistralConfig → VB → List (String × LC) → Option XC → XO → Bool → Except E M)
        (vb : VB) (lora : List (String × LC)) (xcfg : Option XC) (xord : XO),
        MistralLoader.load_xlora new p flag vb lora xcfg xord = .error (.inl e))) ∧
    (∀ e flag, GemmaBasicConfig.deserialize (.error e) flag = .error e) ∧
    (∀ p flag e, GemmaBasicConfig.deserialize p flag = .error e →
      (∀ (VB E M : Type) (new : GemmaConfig → VB → Bool → Except E M) (vb : VB),
        GemmaLoader.load new p flag vb = .error (.inl e)) ∧
      (∀ (VB LC XC XO E M : Type)
        (new : GemmaConfig → VB → List (String × LC) → Option XC → XO → Bool → Except E M)
        (vb : VB) (lora : List (String × LC)) (xcfg : Option XC) (xord : XO),
        GemmaLoader.load_xlora new p flag vb lora xcfg xord = .error (.inl e))) ∧
    (∀ e flag, LlamaBasicConfig.deserialize (.error e) flag = .error e) ∧
    (∀ p flag e, LlamaBasicConfig.deserialize p flag = .error e →
      (∀ (VB E M : Type) (new : LlamaConfig → VB → Bool → Except E M) (vb : VB),
        LlamaLoader.load new p flag vb = .error (.inl e)) ∧
      (∀ (VB LC XC XO E M : Type)
        (new : LlamaConfig → VB → List (String × LC) → Option XC → XO → Bool → Except E M)
        (vb : VB) (lora : List (String × LC)) (xcfg : Option XC) (xord : XO),
        LlamaLoader.load_xlora new p flag vb lora xcfg xord = .error (.inl e))) ∧
    (∀ e flag, MixtralBasicConfig.deserialize (.error e) flag = .error e) ∧
    (∀ p flag e, MixtralBasicConfig.deserialize p flag = .error e →
      (∀ (VB E M : Type) (new : MixtralConfig → VB → Bool → Except E M) (vb : VB),
        MixtralLoader.load new p flag vb = .error (.inl e)) ∧
      (∀ (VB LC XC XO E M : Type)
        (new : MixtralConfig → VB → List (String × LC) → Option XC → XO → Bool → Except E M)
        (vb : VB) (lora : List (String × LC)) (xcfg : Option XC) (xord : XO),
        MixtralLoader.load_xlora new p flag vb lora xcfg xord = .error (.inl e))) ∧
    (∀ e flag, Phi2BasicConfig.deserialize (.error e) flag = .error e) ∧
    (∀ p flag e, Phi2BasicConfig.deserialize p flag = .error e →
      (∀ (VB E M : Type) (new : Phi2Config → VB → Bool → Except E M) (vb : VB),
        Phi2Loader.load new p flag vb = .error (.inl e)) ∧
      (∀ (VB LC XC XO E M : Type)
        (new : Phi2Config → VB → List (String × LC) → Option XC → XO → Bool → Except E M)
        (vb : VB) (lora : List (String × LC)) (xcfg : Option XC) (xord : XO),
        Phi2Loader.load_xlora new p flag vb lora xcfg xord = .error (.inl e))) := by
  refine ⟨fun e flag => rfl, ?_, fun e flag => rfl, ?_, fun e flag => rfl, ?_,
    fun e flag => rfl, ?_, fun e flag => rfl, ?_⟩
  · intro p flag e h
    constructor
    · intro VB E M new vb
      unfold MistralLoader.load
      rw [h]
    · intro VB LC XC XO E M new vb lora xcfg xord
      unfold MistralLoader.load_xlora
      rw [h]
  · intro p flag e h
    constructor
    · intro VB E M new vb
      unfold GemmaLoader.load
      rw [h]
    · intro VB LC XC XO E M new vb lora xcfg xord
      unfold GemmaLoader.load_xlora
      rw [h]
  · intro p flag e h
    constructor
    · intro VB E M new vb
      unfold LlamaLoader.load
      rw [h]
    · intro VB LC XC XO E M new vb lora xcfg xord
      unfold LlamaLoader.load_xlora
      rw [h]
  · intro p flag e h
    constructor
    · intro VB E M new vb
      unfold MixtralLoader.load
      rw [h]
    · intro VB LC XC XO E M new vb lora xcfg xord
      unfold MixtralLoader.load_xlora
      rw [h]
  · intro p flag e h
    constructor
    · intro VB E M new vb
      unfold Phi2Loader.load
      rw [h]
    · intro VB LC XC XO E M new vb lora xcfg xord
      unfold Phi2Loader.load_xlora
      rw [h]

/-- C5 (witness): a Mistral document missing the required `vocab_size` fails
with exactly the missing-field diagnostic, and both load paths surface it
unmodified; a malformed-text parse error is propagated as well. -/
theorem C5_error_propagation_witness :
    MistralBasicConfig.deserialize (.ok mistralNoVocabDoc) true
      = .error (.missingField "vocab_size") ∧
    MistralLoader.load (fun _ _ _ => (Except.ok () : Except Unit Unit))
      (.ok mistralNoVocabDoc) true () = .error (.inl (.missingField "vocab_size")) ∧
    MistralLoader.load_xlora (fun _ _ _ _ _ _ => (Except.ok () : Except Unit Unit))
      (.ok mistralNoVocabDoc) true () ([] : List (String × Unit)) (none : Option Unit) ()
      = .error (.inl (.missingField "vocab_size")) ∧
    MistralBasicConfig.deserialize (.error (.syntaxErr "expected value at line 1")) true
      = .error (.syntaxErr "expected value at line 1") := by
  have h : MistralBasicConfig.deserialize (.ok mistralNoVocabDoc) true
      = .error (.missingField "vocab_size") := by decide
  have h2 := C5_error_propagation.2.1 (.ok mistralNoVocabDoc) true (.missingField "vocab_size") h
  exact ⟨h, h2.1 Unit Unit Unit (fun _ _ _ => .ok ()) (),
    h2.2 Unit Unit Unit Unit Unit Unit (fun _ _ _ _ _ _ => .ok ()) () [] none (),
    C5_error_propagation.1 (.syntaxErr "expected value at line 1") true⟩

/-- The canonical config of `llamaPrecFields` under a `false` flash flag: the
`f32` field rounds 16777217 to 16777216. -/
def llamaPrecCfg : LlamaConfig := ⟨8, 16, 32, 2, 4, 4, ⟨1, 1024⟩, ⟨16777216, 1⟩, false⟩

/-- The canonical config of `mistralPrecFields` under a `false` flash flag:
the `f64` field holds 16777217 exactly. -/
def mistralPrecCfg : MistralConfig :=
  ⟨32, 8, 16, 2, 4, 2, ⟨"silu"⟩, 128, ⟨1, 1024⟩, ⟨16777217, 1⟩, none, false⟩

/-- C6 (confirmed): normalization stores the rotary base through the `f32`
rounding (24-bit significand) for Llama and Phi2, and through the `f64`
rounding (53-bit significand) for Mistral, Gemma and Mixtral — the
per-architecture precision of the canonical field, as declared in the config
record types. -/
theorem C6_rope_theta_precision :
    (∀ o flag cfg q, List.lookup "rope_theta" o = some (.num q) →
      LlamaBasicConfig.deserialize (.ok (.obj o)) flag = .ok cfg →
      cfg.rope_theta = toF32 q) ∧
    (∀ o flag cfg q, List.lookup "rope_theta" o = some (.num q) →
      Phi2BasicConfig.deserialize (.ok (.obj o)) flag = .ok cfg →
      cfg.rope_theta = toF32 q) ∧
    (∀ o flag cfg q, List.lookup "rope_theta" o = some (.num q) →
      MistralBasicConfig.deserialize (.ok (.obj o)) flag = .ok cfg →
      cfg.rope_theta = toF64 q) ∧
    (∀ o flag cfg q, List.lookup "rope_theta" o = some (.num q) →
      GemmaBasicConfig.deserialize (.ok (.obj o)) flag = .ok cfg →
      cfg.rope_theta = toF64 q) ∧
    (∀ o flag cfg q, List.lookup "rope_theta" o = some (.num q) →
      MixtralBasicConfig.deserialize (.ok (.obj o)) flag = .ok cfg →
      cfg.rope_theta = toF64 q) := by
  refine ⟨?_, ?_, ?_, ?_, ?_⟩
  · intro o flag cfg q hq h
    obtain ⟨j, b, hj, hb, rfl⟩ := llama_deserialize_ok h
    cases Except.ok.inj hj
    obtain ⟨o2, ho2, _, _, _, _, _, _, _, hrt⟩ := llama_fromJson_ok hb
    cases Except.ok.inj ho2
    rw [hq] at hrt
    exact (Except.ok.inj hrt).symm
  · intro o flag cfg q hq h
    obtain ⟨j, b, hj, hb, rfl⟩ := phi2_deserialize_ok h
    cases Except.ok.inj hj
    obtain ⟨o2, ho2, _, _, _, _, _, _, _, _, _, _, hrt, _, _⟩ := phi2_fromJson_ok hb
    cases Except.ok.inj ho2
    rw [hq] at hrt
    exact (Except.ok.inj hrt).symm
  · intro o flag cfg q hq h
    obtain ⟨j, b, hj, hb, rfl⟩ := mistral_deserialize_ok h
    cases Except.ok.inj hj
    obtain ⟨o2, ho2, _, _, _, _, _, _, _, _, _, hrt, _⟩ := mistral_fromJson_ok hb
    cases Except.ok.inj ho2
    rw [hq] at hrt
    exact (Except.ok.inj hrt).symm
  · intro o flag cfg q hq h
    obtain ⟨j, b, hj, hb, rfl⟩ := gemma_deserialize_ok h
    cases Except.ok.inj hj
    obtain ⟨o2, ho2, _, _, _, _, _, _, _, _, _, _, hrt, _, _⟩ := gemma_fromJson_ok hb
    cases Except.ok.inj ho2
    rw [hq] at hrt
    exact (Except.ok.inj hrt).symm
  · intro o flag cfg q hq h
    obtain ⟨j, b, hj, hb, rfl⟩ := mixtral_deserialize_ok h
    cases Except.ok.inj hj
    obtain ⟨o2, ho2, _, _, _, _, _, _, _, _, _, hrt, _, _, _⟩ := mixtral_fromJson_ok hb
    cases Except.ok.inj ho2
    rw [hq] at hrt
    exact (Except.ok.inj hrt).symm

/-- C6 (witness): a document with `rope_theta = 16777217` (= 2^24 + 1) gives
the Llama canonical config 16777216 (the nearest `f32`) while the Mistral
canonical config holds 16777217 exactly (`f64`): the precision choice is
observable, per architecture. -/
theorem C6_rope_theta_precision_witness :
    LlamaBasicConfig.deserialize (.ok (.obj llamaPrecFields)) false = .ok llamaPrecCfg ∧
    llamaPrecCfg.rope_theta = toF32 ⟨16777217, 1⟩ ∧
    MistralBasicConfig.deserialize (.ok (.obj mistralPrecFields)) false = .ok mistralPrecCfg ∧
    mistralPrecCfg.rope_theta = toF64 ⟨16777217, 1⟩ ∧
    toF32 ⟨16777217, 1⟩ = ⟨16777216, 1⟩ ∧
    toF64 ⟨16777217, 1⟩ = ⟨16777217, 1⟩ :=
  ⟨by decide,
   C6_rope_theta_precision.1 llamaPrecFields false llamaPrecCfg ⟨16777217, 1⟩
     (by rfl) (by decide),
   by decide,
   C6_rope_theta_precision.2.2.1 mistralPrecFields false mistralPrecCfg ⟨16777217, 1⟩
     (by rfl) (by decide),
   by decide, by decide⟩

/-- C7 (confirmed): for every architecture, whenever normalization succeeds,
`load_xlora` calls the adapter-augmented constructor exactly once with the
canonical config, the weight source, the adapter config list unmodified, the
dynamic-gating argument exactly as given — in particular `none` stays `none`,
no default is synthesized — and the adapter ordering unmodified, and returns
the constructor's result. -/
theorem C7_xlora_forwarding :
    (∀ (VB LC XC XO E M : Type)
      (new : MistralConfig → VB → List (String × LC) → Option XC → XO → Bool → Except E M)
      (p : Except DeError Json) (flag : Bool) (vb : VB) (lora : List (String × LC))
      (xcfg : Option XC) (xord : XO) (cfg : MistralConfig),
      MistralBasicConfig.deserialize p flag = .ok cfg →
      MistralLoader.load_xlora new p flag vb lora xcfg xord
        = ctorResult (new cfg vb lora xcfg xord MistralLoader.is_gptx)) ∧
    (∀ (VB LC XC XO E M : Type)
      (new : GemmaConfig → VB → List (String × LC) → Option XC → XO → Bool → Except E M)
      (p : Except DeError Json) (flag : Bool) (vb : VB) (lora : List (String × LC))
      (xcfg : Option XC) (xord : XO) (cfg : GemmaConfig),
      GemmaBasicConfig.deserialize p flag = .ok cfg →
      GemmaLoader.load_xlora new p flag vb lora xcfg xord
        = ctorResult (new cfg vb lora xcfg xord GemmaLoader.is_gptx)) ∧
    (∀ (VB LC XC XO E M : Type)
      (new : LlamaConfig → VB → List (String × LC) → Option XC → XO → Bool → Except E M)
      (p : Except DeError Json) (flag : Bool) (vb : VB) (lora : List (String × LC))
      (xcfg : Option XC) (xord : XO) (cfg : LlamaConfig),
      LlamaBasicConfig.deserialize p flag = .ok cfg →
      LlamaLoader.load_xlora new p flag vb lora xcfg xord
        = ctorResult (new cfg vb lora xcfg xord LlamaLoader.is_gptx)) ∧
    (∀ (VB LC XC XO E M : Type)
      (new : MixtralConfig → VB → List (String × LC) → Option XC → XO → Bool → Except E M)
      (p : Except DeError Json) (flag : Bool) (vb : VB) (lora : List (String × LC))
      (xcfg : Option XC) (xord : XO) (cfg : MixtralConfig),
      MixtralBasicConfig.deserialize p flag = .ok cfg →
      MixtralLoader.load_xlora new p flag vb lora xcfg xord
        = ctorResult (new cfg vb lora xcfg xord MixtralLoader.is_gptx)) ∧
    (∀ (VB LC XC XO E M : Type)
      (new : Phi2Config → VB → List (String × LC) → Option XC → XO → Bool → Except E M)
      (p : Except DeError Json) (flag : Bool) (vb : VB) (lora : List (String × LC))
      (xcfg : Option XC) (xord : XO) (cfg : Phi2Config),
      Phi2BasicConfig.deserialize p flag = .ok cfg →
      Phi2Loader.load_xlora new p flag vb lora xcfg xord
        = ctorResult (new cfg vb lora xcfg xord Phi2Loader.is_gptx)) := by
  refine ⟨?_, ?_, ?_, ?_, ?_⟩
  · intro VB LC XC XO E M new p flag vb lora xcfg xord cfg h
    unfold MistralLoader.load_xlora
    rw [h]
  · intro VB LC XC XO E M new p flag vb lora xcfg xord cfg h
    unfold GemmaLoader.load_xlora
    rw [h]
  · intro VB LC XC XO E M new p flag vb lora xcfg xord cfg h
    unfold LlamaLoader.load_xlora
    rw [h]
  · intro VB LC XC XO E M new p flag vb lora xcfg xord cfg h
    unfold MixtralLoader.load_xlora
    rw [h]
  · intro VB LC XC XO E M new p flag vb lora xcfg xord cfg h
    unfold Phi2Loader.load_xlora
    rw [h]

/-- C7 (witness): `load_xlora` on the minimal Mistral document with an absent
dynamic-gating config, observed through a constructor that records its
arguments: the constructor receives the canonical config, the adapter list
and ordering unmodified, and `none` — not a synthesized default. -/
theorem C7_xlora_forwarding_witness :
    MistralLoader.load_xlora
      (fun cfg vb lora xcfg xord g =>
        (Except.ok (cfg, vb, lora, xcfg, xord, g) :
          Except Unit (MistralConfig × Unit × List (String × Unit) × Option Unit × Unit × Bool)))
      (.ok mistralMinDoc) true () [("adapter_one", ())] none ()
      = .ok (mistralMinCfg, (), [("adapter_one", ())], none, (), true) := by
  have h := C7_xlora_forwarding.1 Unit Unit Unit Unit Unit
    (MistralConfig × Unit × List (String × Unit) × Option Unit × Unit × Bool)
    (fun cfg vb lora xcfg xord g => Except.ok (cfg, vb, lora, xcfg, xord, g))
    (.ok mistralMinDoc) true () [("adapter_one", ())] none () mistralMinCfg (by decide)
  exact h

/-- C8 (confirmed): for every architecture, `load` and `load_xlora` run the
identical normalization: observed through constructors that return the
canonical config they were handed, the two paths agree on every (parse
result, flash flag) pair — including all failures. -/
theorem C8_shared_normalization :
    (∀ (VB LC XC XO : Type) (vb : VB) (lora : List (String × LC)) (xcfg : Option XC)
      (xord : XO) (p : Except DeError Json) (flag : Bool),
      MistralLoader.load (fun cfg _ _ => (Except.ok cfg : Except Unit MistralConfig)) p flag vb
        = MistralLoader.load_xlora (fun cfg _ _ _ _ _ => (Except.ok cfg : Except Unit MistralConfig))
            p flag vb lora xcfg xord) ∧
    (∀ (VB LC XC XO : Type) (vb : VB) (lora : List (String × LC)) (xcfg : Option XC)
      (xord : XO) (p : Except DeError Json) (flag : Bool),
      GemmaLoader.load (fun cfg _ _ => (Except.ok cfg : Except Unit GemmaConfig)) p flag vb
        = GemmaLoader.load_xlora (fun cfg _ _ _ _ _ => (Except.ok cfg : Except Unit GemmaConfig))
            p flag vb lora xcfg xord) ∧
    (∀ (VB LC XC XO : Type) (vb : VB) (lora : List (String × LC)) (xcfg : Option XC)
      (xord : XO) (p : Except DeError Json) (flag : Bool),
      LlamaLoader.load (fun cfg _ _ => (Except.ok cfg : Except Unit LlamaConfig)) p flag vb
        = LlamaLoader.load_xlora (fun cfg _ _ _ _ _ => (Except.ok cfg : Except Unit LlamaConfig))
            p flag vb lora xcfg xord) ∧
    (∀ (VB LC XC XO : Type) (vb : VB) (lora : List (String × LC)) (xcfg : Option XC)
      (xord : XO) (p : Except DeError Json) (flag : Bool),
      MixtralLoader.load (fun cfg _ _ => (Except.ok cfg : Except Unit MixtralConfig)) p flag vb
        = MixtralLoader.load_xlora (fun cfg _ _ _ _ _ => (Except.ok cfg : Except Unit MixtralConfig))
            p flag vb lora xcfg xord) ∧
    (∀ (VB LC XC XO : Type) (vb : VB) (lora : List (String × LC)) (xcfg : Option XC)
      (xord : XO) (p : Except DeError Json) (flag : Bool),
      Phi2Loader.load (fun cfg _ _ => (Except.ok cfg : Except Unit Phi2Config)) p flag vb
        = Phi2Loader.load_xlora (fun cfg _ _ _ _ _ => (Except.ok cfg : Except Unit Phi2Config))
            p flag vb lora xcfg xord) := by
  refine ⟨?_, ?_, ?_, ?_, ?_⟩
  · intro VB LC XC XO vb lora xcfg xord p flag
    unfold MistralLoader.load MistralLoader.load_xlora
    cases MistralBasicConfig.deserialize p flag <;> rfl
  · intro VB LC XC XO vb lora xcfg xord p flag
    unfold GemmaLoader.load GemmaLoader.load_xlora
    cases GemmaBasicConfig.deserialize p flag <;> rfl
  · intro VB LC XC XO vb lora xcfg xord p flag
    unfold LlamaLoader.load LlamaLoader.load_xlora
    cases LlamaBasicConfig.deserialize p flag <;> rfl
  · intro VB LC XC XO vb lora xcfg xord p flag
    unfold MixtralLoader.load MixtralLoader.load_xlora
    cases MixtralBasicConfig.deserialize p flag <;> rfl
  · intro VB LC XC XO vb lora xcfg xord p flag
    unfold Phi2Loader.load Phi2Loader.load_xlora
    cases Phi2BasicConfig.deserialize p flag <;> rfl

/-- C9 (confirmed): every loader's `is_gptx()` is the constant `true`, and it
is exactly the positional-token-convention argument that `load` and
`load_xlora` pass to the constructors (observed through constructors that
return that argument). -/
theorem C9_is_gptx :
    (MistralLoader.is_gptx = true ∧ GemmaLoader.is_gptx = true ∧
     MixtralLoader.is_gptx = true ∧ LlamaLoader.is_gptx = true ∧
     Phi2Loader.is_gptx = true) ∧
    (∀ (VB : Type) (vb : VB) (p : Except DeError Json) (flag : Bool) (cfg : MistralConfig),
      MistralBasicConfig.deserialize p flag = .ok cfg →
      MistralLoader.load (fun _ _ g => (Except.ok g : Except Unit Bool)) p flag vb
        = .ok MistralLoader.is_gptx ∧
      MistralLoader.load_xlora (fun _ _ _ _ _ g => (Except.ok g : Except Unit Bool))
        p flag vb ([] : List (String × Unit)) (none : Option Unit) ()
        = .ok MistralLoader.is_gptx) ∧
    (∀ (VB : Type) (vb : VB) (p : Except DeError Json) (flag : Bool) (cfg : GemmaConfig),
      GemmaBasicConfig.deserialize p flag = .ok cfg →
      GemmaLoader.load (fun _ _ g => (Except.ok g : Except Unit Bool)) p flag vb
        = .ok GemmaLoader.is_gptx ∧
      GemmaLoader.load_xlora (fun _ _ _ _ _ g => (Except.ok g : Except Unit Bool))
        p flag vb ([] : List (String × Unit)) (none : Option Unit) ()
        = .ok GemmaLoader.is_gptx) ∧
    (∀ (VB : Type) (vb : VB) (p : Except DeError Json) (flag : Bool) (cfg : LlamaConfig),
      LlamaBasicConfig.deserialize p flag = .ok cfg →
      LlamaLoader.load (fun _ _ g => (Except.ok g : Except Unit Bool)) p flag vb
        = .ok LlamaLoader.is_gptx ∧
      LlamaLoader.load_xlora (fun _ _ _ _ _ g => (Except.ok g : Except Unit Bool))
        p flag vb ([] : List (String × Unit)) (none : Option Unit) ()
        = .ok LlamaLoader.is_gptx) ∧
    (∀ (VB : Type) (vb : VB) (p : Except DeError Json) (flag : Bool) (cfg : MixtralConfig),
      MixtralBasicConfig.deserialize p flag = .ok cfg →
      MixtralLoader.load (fun _ _ g => (Except.ok g : Except Unit Bool)) p flag vb
        = .ok MixtralLoader.is_gptx ∧
      MixtralLoader.load_xlora (fun _ _ _ _ _ g => (Except.ok g : Except Unit Bool))
        p flag vb ([] : List (String × Unit)) (none : Option Unit) ()
        = .ok MixtralLoader.is_gptx) ∧
    (∀ (VB : Type) (vb : VB) (p : Except DeError Json) (flag : Bool) (cfg : Phi2Config),
      Phi2BasicConfig.deserialize p flag = .ok cfg →
      Phi2Loader.load (fun _ _ g => (Except.ok g : Except Unit Bool)) p flag vb
        = .ok Phi2Loader.is_gptx ∧
      Phi2Loader.load_xlora (fun _ _ _ _ _ g => (Except.ok g : Except Unit Bool))
        p flag vb ([] : List (String × Unit)) (none : Option Unit) ()
        = .ok Phi2Loader.is_gptx) := by
  refine ⟨⟨rfl, rfl, rfl, rfl, rfl⟩, ?_, ?_, ?_, ?_, ?_⟩
  · intro VB vb p flag cfg h
    constructor
    · unfold MistralLoader.load
      rw [h]
      rfl
    · unfold MistralLoader.load_xlora
      rw [h]
      rfl
  · intro VB vb p flag cfg h
    constructor
    · unfold GemmaLoader.load
      rw [h]
      rfl
    · unfold GemmaLoader.load_xlora
      rw [h]
      rfl
  · intro VB vb p flag cfg h
    constructor
    · unfold LlamaLoader.load
      rw [h]
      rfl
    · unfold LlamaLoader.load_xlora
      rw [h]
      rfl
  · intro VB vb p flag cfg h
    constructor
    · unfold MixtralLoader.load
      rw [h]
      rfl
    · unfold MixtralLoader.load_xlora
      rw [h]
      rfl
  · intro VB vb p flag cfg h
    constructor
    · unfold Phi2Loader.load
      rw [h]
      rfl
    · unfold Phi2Loader.load_xlora
      rw [h]
      rfl

/-- C9 (witness): on the minimal Mistral document, the constructor invoked by
`load` receives `true` as the positional-token-convention argument. -/
theorem C9_is_gptx_witness :
    MistralLoader.load (fun _ _ g => (Except.ok g : Except Unit Bool))
      (.ok mistralMinDoc) true () = .ok true ∧
    MistralLoader.is_gptx = true := by
  have h := (C9_is_gptx.2.1 Unit () (.ok mistralMinDoc) true mistralMinCfg (by decide)).1
  exact ⟨h, rfl⟩

/-- C10 (confirmed): for every architecture, deserialization reads only the
fields declared in its schema: any two documents that agree on the schema's
keys (in particular, a document extended with arbitrary unknown fields)
normalize identically, so extra fields are tolerated and have no effect —
the serde derive does not opt into `deny_unknown_fields`. -/
theorem C10_unknown_fields :
    (∀ (o o' : List (String × Json)) (flag : Bool),
      (∀ f ∈ mistralKeys, List.lookup f o = List.lookup f o') →
      MistralBasicConfig.deserialize (.ok (.obj o)) flag
        = MistralBasicConfig.deserialize (.ok (.obj o')) flag) ∧
    (∀ (o o' : List (String × Json)) (flag : Bool),
      (∀ f ∈ gemmaKeys, List.lookup f o = List.lookup f o') →
      GemmaBasicConfig.deserialize (.ok (.obj o)) flag
        = GemmaBasicConfig.deserialize (.ok (.obj o')) flag) ∧
    (∀ (o o' : List (String × Json)) (flag : Bool),
      (∀ f ∈ llamaKeys, List.lookup f o = List.lookup f o') →
      LlamaBasicConfig.deserialize (.ok (.obj o)) flag
        = LlamaBasicConfig.deserialize (.ok (.obj o')) flag) ∧
    (∀ (o o' : List (String × Json)) (flag : Bool),
      (∀ f ∈ mixtralKeys, List.lookup f o = List.lookup f o') →
      MixtralBasicConfig.deserialize (.ok (.obj o)) flag
        = MixtralBasicConfig.deserialize (.ok (.obj o')) flag) ∧
    (∀ (o o' : List (String × Json)) (flag : Bool),
      (∀ f ∈ phi2Keys, List.lookup f o = List.lookup f o') →
      Phi2BasicConfig.deserialize (.ok (.obj o)) flag
        = Phi2BasicConfig.deserialize (.ok (.obj o')) flag) := by
  refine ⟨?_, ?_, ?_, ?_, ?_⟩
  · intro o o' flag h
    have hf : MistralBasicConfig.fromJson (.obj o) = MistralBasicConfig.fromJson (.obj o') := by
      unfold MistralBasicConfig.fromJson
      simp only [getObj, Except.bind]
      rw [h "vocab_size" (by decide), h "hidden_size" (by decide),
        h "intermediate_size" (by decide), h "num_hidden_layers" (by decide),
        h "num_attention_heads" (by decide), h "num_key_value_heads" (by decide),
        h "hidden_act" (by decide), h "max_position_embeddings" (by decide),
        h "rms_norm_eps" (by decide), h "rope_theta" (by decide),
        h "sliding_window" (by decide)]
    unfold MistralBasicConfig.deserialize
    simp only [Except.bind]
    rw [hf]
  · intro o o' flag h
    have hf : GemmaBasicConfig.fromJson (.obj o) = GemmaBasicConfig.fromJson (.obj o') := by
      unfold GemmaBasicConfig.fromJson
      simp only [getObj, Except.bind]
      rw [h "attention_bias" (by decide), h "head_dim" (by decide),
        h "hidden_act" (by decide), h "hidden_activation" (by decide),
        h "hidden_size" (by decide), h "intermediate_size" (by decide),
        h "num_attention_heads" (by decide), h "num_hidden_layers" (by decide),
        h "num_key_value_heads" (by decide), h "rms_norm_eps" (by decide),
        h "rope_theta" (by decide), h "vocab_size" (by decide),
        h "max_position_embeddings" (by decide)]
    unfold GemmaBasicConfig.deserialize
    simp only [Except.bind]
    rw [hf]
  · intro o o' flag h
    have hf : LlamaBasicConfig.fromJson (.obj o) = LlamaBasicConfig.fromJson (.obj o') := by
      unfold LlamaBasicConfig.fromJson
      simp only [getObj, Except.bind]
      rw [h "hidden_size" (by decide), h "intermediate_size" (by decide),
        h "vocab_size" (by decide), h "num_hidden_layers" (by decide),
        h "num_attention_heads" (by decide), h "num_key_value_heads" (by decide),
        h "rms_norm_eps" (by decide), h "rope_theta" (by decide)]
    unfold LlamaBasicConfig.deserialize
    simp only [Except.bind]
    rw [hf]
  · intro o o' flag h
    have hf : MixtralBasicConfig.fromJson (.obj o) = MixtralBasicConfig.fromJson (.obj o') := by
      unfold MixtralBasicConfig.fromJson
      simp only [getObj, Except.bind]
      rw [h "vocab_size" (by decide), h "hidden_size" (by decide),
        h "intermediate_size" (by decide), h "num_hidden_layers" (by decide),
        h "num_attention_heads" (by decide), h "num_key_value_heads" (by decide),
        h "hidden_act" (by decide), h "max_position_embeddings" (by decide),
        h "rms_norm_eps" (by decide), h "rope_theta" (by decide),
        h "sliding_window" (by decide), h "num_experts_per_tok" (by decide),
        h "num_local_experts" (by decide)]
    unfold MixtralBasicConfig.deserialize
    simp only [Except.bind]
    rw [hf]
  · intro o o' flag h
    have hf : Phi2BasicConfig.fromJson (.obj o) = Phi2BasicConfig.fromJson (.obj o') := by
      unfold Phi2BasicConfig.fromJson
      simp only [getObj, Except.bind]
      rw [h "vocab_size" (by decide), h "hidden_size" (by decide),
        h "intermediate_size" (by decide), h "num_hidden_layers" (by decide),
        h "num_attention_heads" (by decide), h "num_key_value_heads" (by decide),
        h "hidden_act" (by decide), h "max_position_embeddings" (by decide),
        h "layer_norm_eps" (by decide), h "tie_word_embeddings" (by decide),
        h "rope_theta" (by decide), h "partial_rotary_factor" (by decide),
        h "qk_layernorm" (by decide)]
    unfold Phi2BasicConfig.deserialize
    simp only [Except.bind]
    rw [hf]

/-- C10 (witness): the minimal Mistral document still normalizes to the same
successful canonical config after adding unknown fields, whether prepended or
appended. -/
theorem C10_unknown_fields_witness :
    MistralBasicConfig.deserialize (.ok (.obj (("unrelated_extra", .null) :: mistralMinFields))) true
      = MistralBasicConfig.deserialize (.ok (.obj mistralMinFields)) true ∧
    MistralBasicConfig.deserialize (.ok (.obj (mistralMinFields ++ [("another_extra", .bool true)]))) true
      = .ok mistralMinCfg := by
  constructor
  · exact C10_unknown_fields.1 _ _ true (by
      intro f hf
      simp [mistralKeys] at hf
      rcases hf with rfl | rfl | rfl | rfl | rfl | rfl | rfl | rfl | rfl | rfl | rfl <;> rfl)
  · have h := C10_unknown_fields.1 (mistralMinFields ++ [("another_extra", .bool true)])
      mistralMinFields true (by
      intro f hf
      simp [mistralKeys] at hf
      rcases hf with rfl | rfl | rfl | rfl | rfl | rfl | rfl | rfl | rfl | rfl | rfl <;> rfl)
    rw [h]
    decide
